import Mathlib

/-! ShowTracker client (static/JS/showtrack.js).

A shallow embedding of the browser client: the card renderer, the status
formatter, the catalog search, and the add/edit media modal with its poster
verification workflow.

Conventions of the embedding.
* JavaScript strings are Lean strings (one `Char` per code unit; the strings
  the client handles are dates, status codes, URLs and decimal numerals).
* A JavaScript value that may be `undefined`, `null`, a string or an inherited
  built-in is a `JSVal`.
* The counters of a record (episodes, season, progress) are natural numbers,
  `none` when absent.  The results of `parseInt` and `Number` are `JSNumber`
  values, rounded to IEEE 754 binary64, as is the division of
  `createMediaCard`.
* The `src` property of an image reads back the assigned string resolved
  against the URL of the page; that resolution is a parameter of the step
  (`Backend.resolveUrl`).
* Globals and the DOM nodes the client reads or writes form the `State`; the
  requests for poster verification, persisting and catalog search, and the
  notifications, are appended to `State.effects`.
* An `await` on a network call is one atomic step whose answer is an argument
  of the step.  The `await` on the manual confirmation (`verifyImage`) really
  suspends: the suspended caller is stored in `State.confirmImagePromise` and
  resumed by `confirmImage`.
-/

namespace ShowTracker

set_option exponentiation.threshold 1100

/-! ## JavaScript values -/

/-- The JavaScript values that reach the modelled expressions. -/
inductive JSVal where
  | undefined
  | null
  | str (s : String)
  | builtin (name : String)
  deriving DecidableEq, Repr

namespace JSVal

/-- ToBoolean. -/
def truthy : JSVal → Bool
  | undefined => false
  | null => false
  | str s => s != ""
  | builtin _ => true

/-- The operator `a || b`. -/
def or (a b : JSVal) : JSVal := if a.truthy then a else b

/-- ToString, as applied when a value is assigned to a DOM string property. -/
def toStr : JSVal → String
  | undefined => "undefined"
  | null => "null"
  | str s => s
  | builtin name => name

end JSVal

/-- ToString of a non-negative integer Number. -/
def natToStr (n : Nat) : String := toString n

/-- ToString of an integer Number. -/
def intToStr (i : Int) : String := toString i

/-- The operator `n || d` on an optional count (`undefined`, `null`, `0` are falsy). -/
def natOr (n : Option Nat) (d : Nat) : Nat :=
  match n with
  | some k => if k = 0 then d else k
  | none => d

/-- The operator `n || text` rendered into a string property. -/
def natOrText (n : Option Nat) (text : String) : String :=
  match n with
  | some k => if k = 0 then text else natToStr k
  | none => text

/-- The operator `s || d` on strings (the empty string is falsy). -/
def strOr (s d : String) : String := if s = "" then d else s

/-! ## Records -/

/-- A media object as the client holds it: either a search result (which
carries `posterPath`) or a stored record (which carries `poster_path`, `status`
and the counters). -/
structure Media where
  id : String
  type : String
  title : String
  year : String
  overview : String
  tmdbId : Option Nat
  posterPath : JSVal
  poster_path : JSVal
  status : String
  watched_episodes : Option Nat
  total_episodes : Option Nat
  season : Option Nat
  episode : Option Nat
  progress : Option Nat
  deriving DecidableEq, Repr

/-! ## formatStatus -/

/-- Own properties of the object literal `map` of `formatStatus`. -/
def statusMap : List (String × String) :=
  [("to-watch", "Plan to Watch"), ("watching", "Watching"),
   ("completed", "Completed"), ("dropped", "Dropped")]

/-- Names of the properties that an object literal inherits from
`Object.prototype`. -/
def objectPrototypeKeys : List String :=
  ["constructor", "__defineGetter__", "__defineSetter__", "hasOwnProperty",
   "__lookupGetter__", "__lookupSetter__", "isPrototypeOf",
   "propertyIsEnumerable", "toString", "valueOf", "__proto__", "toLocaleString"]

/-- The property read `obj[key]` on an object literal with the given own
properties: own property first, then the prototype chain. -/
def getProp (own : List (String × String)) (key : String) : JSVal :=
  match own.lookup key with
  | some v => .str v
  | none =>
    if key ∈ objectPrototypeKeys then .builtin ("Object.prototype." ++ key)
    else .undefined

/-- `formatStatus(status)`: `map[status] || status`. -/
def formatStatus (status : String) : JSVal :=
  (getProp statusMap status).or (.str status)

/-! ## Number arithmetic of `createMediaCard` -/

/-- Nearest integer to `n / d`, ties to the even neighbour. -/
def roundHalfEven (n d : Nat) : Nat :=
  let q := n / d
  let r := n % d
  if 2 * r < d then q
  else if d < 2 * r then q + 1
  else if q % 2 = 0 then q
  else q + 1

/-- Auxiliary recursion of `log2`, with the recursion depth as first argument. -/
def log2Fuel : Nat → Nat → Nat
  | 0, _ => 0
  | fuel + 1, n => if 2 ≤ n then log2Fuel fuel (n / 2) + 1 else 0

/-- Position of the leading bit: `⌊log₂ n⌋` for positive `n`, and `0` for `0`. -/
def log2 (n : Nat) : Nat := log2Fuel n n

/-- The binary64 value nearest to the non-negative rational `n / d` (round to
nearest, ties to even, 53-bit significand), as a numerator and a power-of-two
denominator.  Exponent range is not modelled: the operands of the client are
integers below `2 ^ 53`, whose quotients and products are in the normal range. -/
def roundBinary64 (n d : Nat) : Nat × Nat :=
  let a := log2 n
  let b := log2 d
  let p := if d * 2 ^ a ≤ n * 2 ^ b then 52 + b else 53 + b
  (roundHalfEven (n * 2 ^ p) (d * 2 ^ a) * 2 ^ a, 2 ^ p)

/-- The Number `x / y` for integer operands. -/
def numDiv (x y : Nat) : Nat × Nat := roundBinary64 x y

/-- The Number `v * k` for a binary64 value `v` and an integer `k`. -/
def numMul (v : Nat × Nat) (k : Nat) : Nat × Nat := roundBinary64 (v.1 * k) v.2

/-- `Math.round(v)`: the integer nearest to `v`, ties towards positive infinity. -/
def mathRound (v : Nat × Nat) : Nat := (2 * v.1 + v.2) / (2 * v.2)

/-- The `percent` of the TV branch of `createMediaCard`:
`total ? Math.round((watched / total) * 100) : 0`. -/
def tvPercent (watched total : Nat) : Nat :=
  if total = 0 then 0 else mathRound (numMul (numDiv watched total) 100)

/-! ## createMediaCard -/

/-- The `progressHtml` fragment of a card. -/
inductive ProgressHtml where
  | empty
  | tv (percent : Nat) (episodeCount : String) (seasonLine : String)
  | movie (percent : Nat) (label : String)
  deriving DecidableEq, Repr

/-- A rendered media card. -/
structure Card where
  dataId : String
  posterSrc : String
  alt : String
  title : String
  year : String
  statusLabel : JSVal
  progressHtml : ProgressHtml
  onclick : Media
  deriving DecidableEq, Repr

/-- `createMediaCard(media)`. -/
def createMediaCard (media : Media) : Card :=
  let progressHtml :=
    if media.type = "tv" ∧ media.status = "watching" then
      let total := natOr media.total_episodes 0
      let watched := natOr media.watched_episodes 0
      let percent := tvPercent watched total
      ProgressHtml.tv percent
        (natToStr watched ++ " / " ++ natOrText (some total) "?")
        ("Season " ++ natOrText media.season "-" ++ ", Ep " ++ natOrText media.episode "-")
    else if media.type = "movie" ∧ media.status = "watching" then
      let percent := natOr media.progress 0
      ProgressHtml.movie percent (natToStr percent ++ "%")
    else ProgressHtml.empty
  { dataId := media.id
    posterSrc := (media.poster_path.or (.str "/static/images/placeholder.jpg")).toStr
    alt := media.title
    title := media.title
    year := strOr media.year "Unknown"
    statusLabel := formatStatus media.status
    progressHtml := progressHtml
    onclick := media }

/-! ## parseInt and Number on strings -/

/-- The code points of `StrWhiteSpaceChar` (white space and line terminators). -/
def isStrWhiteSpaceChar (c : Char) : Bool :=
  c.toNat ∈ [0x09, 0x0A, 0x0B, 0x0C, 0x0D, 0x20, 0xA0, 0x1680, 0x2028, 0x2029,
             0x202F, 0x205F, 0x3000, 0xFEFF]
  || (0x2000 ≤ c.toNat && c.toNat ≤ 0x200A)

/-- `String.prototype.trim`. -/
def jsTrim (s : String) : String :=
  String.mk (((s.toList.dropWhile isStrWhiteSpaceChar).reverse.dropWhile
    isStrWhiteSpaceChar).reverse)

/-- Value of a character as a digit (`0-9`, `a-z`, `A-Z`). -/
def digitValue (c : Char) : Option Nat :=
  if '0' ≤ c ∧ c ≤ '9' then some (c.toNat - '0'.toNat)
  else if 'a' ≤ c ∧ c ≤ 'z' then some (c.toNat - 'a'.toNat + 10)
  else if 'A' ≤ c ∧ c ≤ 'Z' then some (c.toNat - 'A'.toNat + 10)
  else none

/-- Whether `c` is a digit of the given radix. -/
def isRadixDigit (radix : Nat) (c : Char) : Bool :=
  match digitValue c with
  | some v => v < radix
  | none => false

/-- Value of a digit sequence in the given radix. -/
def digitsValue (radix : Nat) (ds : List Char) : Nat :=
  ds.foldl (fun acc c => acc * radix + (digitValue c).getD 0) 0

/-- A Number value: `NaN`, an infinity, or the finite value `num / den` with
its sign (zero has a sign too).  The integers that `parseInt` and numeric
literals produce have `den = 1`. -/
inductive JSNumber where
  | nan
  | infinity (negative : Bool)
  | finite (negative : Bool) (num : Nat) (den : Nat)
  deriving DecidableEq, Repr

/-- A numeric literal of the source: the non-negative integer `n`. -/
instance (n : Nat) : OfNat JSNumber n := ⟨.finite false n 1⟩

namespace JSNumber

/-- ToBoolean of a Number: `NaN`, `+0` and `-0` are falsy. -/
def truthy : JSNumber → Bool
  | nan => false
  | infinity _ => true
  | finite _ num _ => num != 0

/-- The test `v > 0`. -/
def isPositive : JSNumber → Bool
  | nan => false
  | infinity negative => !negative
  | finite negative num _ => !negative && num != 0

end JSNumber

/-- The Number value for the rational `n / d` with the given sign: binary64
round to nearest, ties to even, with the whole exponent range: below
`2 ^ (-1022)` the value is rounded to a multiple of `2 ^ (-1074)`, and a
rounded value of `2 ^ 1024` or more is an infinity. -/
def toBinary64 (negative : Bool) (n d : Nat) : JSNumber :=
  if n * 2 ^ 1022 < d then .finite negative (roundHalfEven (n * 2 ^ 1074) d) (2 ^ 1074)
  else
    let r := roundBinary64 n d
    if 2 ^ 1024 * r.2 ≤ r.1 then .infinity negative else .finite negative r.1 r.2

/-- The Number value for the integer `n` with the given sign, written with
denominator 1 (a binary64 value of magnitude `2 ^ 53` or more is an integer). -/
def numberOfInteger (negative : Bool) (n : Nat) : JSNumber :=
  let r := roundBinary64 n 1
  if 2 ^ 1024 * r.2 ≤ r.1 then .infinity negative else .finite negative (r.1 / r.2) 1

/-- The parsing steps of `parseInt(string)` with no radix argument: leading
white space is skipped, a sign is read, a `0x` or `0X` selects radix 16, and
the longest run of digits of the radix is taken.  The result is the sign
(`true` for `-`) and the integer the digits denote; `none` when there is no
digit. -/
def parseIntDigits (s : String) : Option (Bool × Nat) :=
  let cs := s.toList.dropWhile isStrWhiteSpaceChar
  let signed : Bool × List Char :=
    match cs with
    | '-' :: t => (true, t)
    | '+' :: t => (false, t)
    | _ => (false, cs)
  let based : Nat × List Char :=
    match signed.2 with
    | '0' :: 'x' :: t => (16, t)
    | '0' :: 'X' :: t => (16, t)
    | _ => (10, signed.2)
  let ds := based.2.takeWhile (isRadixDigit based.1)
  if ds = [] then none else some (signed.1, digitsValue based.1 ds)

/-- `parseInt(string)` with no radix argument: `NaN` when there is no digit,
otherwise the Number value for the signed integer parsed (the integer itself
below `2 ^ 53`, the nearest binary64 value above, an infinity from `2 ^ 1024`
on).  All digits are significant: the licence of ECMAScript to ignore decimal
digits after the 20th is not used. -/
def parseInt (s : String) : JSNumber :=
  match parseIntDigits s with
  | none => .nan
  | some (negative, n) => numberOfInteger negative n

/-- The operator `n || d` on Numbers. -/
def numOr (n d : JSNumber) : JSNumber := if n.truthy then n else d

/-- The `ExponentPart` that may end a decimal literal: the exponent, `0` when
there is none; `none` when the characters are not an exponent part. -/
def parseExponent (cs : List Char) : Option Int :=
  match cs with
  | [] => some 0
  | c :: rest =>
    if c = 'e' ∨ c = 'E' then
      let signed : Bool × List Char :=
        match rest with
        | '-' :: t => (true, t)
        | '+' :: t => (false, t)
        | _ => (false, rest)
      if signed.2 ≠ [] ∧ signed.2.all (isRadixDigit 10) = true then
        some (if signed.1 then -(digitsValue 10 signed.2 : Int) else (digitsValue 10 signed.2 : Int))
      else none
    else none

/-- A `StrUnsignedDecimalLiteral` other than `Infinity` (digits with an
optional fraction and an optional exponent; one of the integer and fraction
parts may be missing): the pair `(m, e)` whose value is `m * 10 ^ e`. -/
def parseUnsignedDecimal (cs : List Char) : Option (Nat × Int) :=
  let intDigits := cs.takeWhile (isRadixDigit 10)
  match cs.dropWhile (isRadixDigit 10) with
  | '.' :: afterDot =>
    let fracDigits := afterDot.takeWhile (isRadixDigit 10)
    if intDigits = [] ∧ fracDigits = [] then none
    else
      (parseExponent (afterDot.dropWhile (isRadixDigit 10))).map (fun e =>
        (digitsValue 10 (intDigits ++ fracDigits), e - (fracDigits.length : Int)))
  | rest =>
    if intDigits = [] then none
    else (parseExponent rest).map (fun e => (digitsValue 10 intDigits, e))

/-- A `NonDecimalIntegerLiteral`: `0x`, `0o` or `0b` (either case) followed by
at least one digit of radix 16, 8 or 2 and nothing else. -/
def parseNonDecimal (cs : List Char) : Option Nat :=
  match cs with
  | '0' :: c :: ds =>
    let radix : Nat :=
      if c = 'x' ∨ c = 'X' then 16
      else if c = 'o' ∨ c = 'O' then 8
      else if c = 'b' ∨ c = 'B' then 2
      else 0
    if radix ≠ 0 ∧ ds ≠ [] ∧ ds.all (isRadixDigit radix) = true then
      some (digitsValue radix ds)
    else none
  | _ => none

/-- `Number(string)` (StringToNumber): white space around the literal is
ignored; the empty string is `+0`; a radix-based integer literal, or a decimal
literal with optional sign, fraction and exponent, or a signed `Infinity`, is
its Number value; anything else is `NaN`.  All digits are significant. -/
def jsNumber (s : String) : JSNumber :=
  let cs := (jsTrim s).toList
  if cs = [] then .finite false 0 1
  else
    match parseNonDecimal cs with
    | some n => numberOfInteger false n
    | none =>
      let signed : Bool × List Char :=
        match cs with
        | '-' :: t => (true, t)
        | '+' :: t => (false, t)
        | _ => (false, cs)
      if signed.2 = "Infinity".toList then .infinity signed.1
      else
        match parseUnsignedDecimal signed.2 with
        | none => .nan
        | some (m, e) =>
          if 0 ≤ e then toBinary64 signed.1 (m * 10 ^ e.toNat) 1
          else toBinary64 signed.1 m (10 ^ (-e).toNat)

/-- The operator `x - y` on Numbers: `NaN` propagates, equal infinities cancel
to `NaN`, an infinity dominates a finite operand, and the exact difference of
two finite operands is rounded to binary64 (an exact zero is `+0`, except
`(-0) - (+0)`, which is `-0`). -/
def JSNumber.sub (x y : JSNumber) : JSNumber :=
  match x, y with
  | .nan, _ => .nan
  | _, .nan => .nan
  | .infinity a, .infinity b => if a = b then .nan else .infinity a
  | .infinity a, .finite _ _ _ => .infinity a
  | .finite _ _ _, .infinity b => .infinity (!b)
  | .finite s1 n1 d1, .finite s2 n2 d2 =>
    let diff : Int :=
      (if s1 then -((n1 * d2 : Nat) : Int) else ((n1 * d2 : Nat) : Int)) -
        (if s2 then -((n2 * d1 : Nat) : Int) else ((n2 * d1 : Nat) : Int))
    if diff = 0 then .finite (n1 = 0 && s1 && !s2) 0 1
    else toBinary64 (decide (diff < 0)) diff.natAbs (d1 * d2)

/-! ## Rendered lists -/

/-- Children of a grid container after `renderMediaGrid`. -/
inductive GridContent where
  | blank
  | emptyMessage
  | cards (cs : List Card)
  deriving DecidableEq, Repr

/-- `renderMediaGrid(items, containerId)`: the new content of the container. -/
def renderMediaGrid (items : List Media) : GridContent :=
  if items.length = 0 then .emptyMessage else .cards (items.map createMediaCard)

/-- The filter of `loadTVShows`. -/
def tvShowsFilter (status : String) (m : Media) : Bool :=
  m.type = "tv" && m.status = status

/-- The filter of `loadMovies`. -/
def moviesFilter (status : String) (m : Media) : Bool :=
  m.type = "movie" && m.status = status

/-- The `progress > 0 && progress < 100` test (an absent progress compares false). -/
def progressInside (p : Option Nat) : Bool :=
  match p with
  | some v => 0 < v && v < 100
  | none => false

/-- The filter of `loadContinueWatching`. -/
def continueWatchingFilter (m : Media) : Bool :=
  m.status = "watching" || (m.type = "movie" && progressInside m.progress)

/-- The `continueWatching` filter of `loadDashboardData`. -/
def dashboardContinueFilter (m : Media) : Bool :=
  m.status = "watching" || (m.type = "movie" && progressInside m.progress)

/-! ## Backend answers -/

/-- Answer to `GET /media/{username}`. -/
inductive MediaAnswer where
  | response (ok : Bool) (media : List Media) (error : String)
  | thrown
  deriving DecidableEq, Repr

/-- Answer to `POST /verify-image`. -/
inductive VerifyAnswer where
  | response (ok : Bool) (is_match : Bool)
  | thrown
  deriving DecidableEq, Repr

/-- Answer to `POST /media` or `PUT /media/{id}`. -/
inductive PersistAnswer where
  | response (ok : Bool) (error : String)
  | thrown
  deriving DecidableEq, Repr

/-- An item of a catalog answer. -/
structure CatalogItem where
  id : Nat
  name : String
  title : String
  first_air_date : Option String
  release_date : Option String
  overview : String
  poster_path : Option String
  deriving DecidableEq, Repr

/-- Answer to `GET /api/tmdb/search`: `results` may be absent; a failed fetch
or an unparsable body throws. -/
inductive SearchAnswer where
  | response (results : Option (List CatalogItem))
  | thrown
  deriving DecidableEq, Repr

/-- The surroundings of one step: the answers the backend gives to its
requests, and the URL resolution of the page (what the `src` property of an
image returns for a given `src` attribute). -/
structure Backend where
  verify : VerifyAnswer
  persist : PersistAnswer
  media : MediaAnswer
  search : String → SearchAnswer
  resolveUrl : String → String

/-! ## State -/

/-- The logged-in user. -/
structure User where
  username : String
  deriving DecidableEq, Repr

/-- The body of a persist request. -/
structure Payload where
  id : String
  username : String
  type : String
  title : String
  year : String
  overview : String
  poster_path : JSVal
  status : String
  watched_episodes : JSNumber
  total_episodes : Nat
  progress : JSNumber
  season : Option JSNumber
  episode : Option JSNumber
  deriving DecidableEq, Repr

/-- Outward calls of the client. -/
inductive Effect where
  | verifyImage (title : String) (image_url : JSVal)
  | persist (method : String) (url : String) (body : Payload)
  | search (media_type : String) (query : String) (year : String)
  | notification (message : String) (type : String)
  deriving DecidableEq, Repr

/-- The locals of `saveMediaDetails` that are live across the poster
verification. -/
structure SaveFrame where
  mediaObj : Media
  status : String
  watched_episodes : JSNumber
  season : Option JSNumber
  episode : Option JSNumber
  progress : JSNumber
  deriving DecidableEq, Repr

/-- The caller suspended on the promise of `verifyImage`. -/
inductive Awaiting where
  | saveMediaDetails (frame : SaveFrame)
  | searchCardClick (media : Media)
  deriving DecidableEq, Repr

/-- The object stored in `window.confirmImagePromise`: the suspended caller, and
whether `resolve` was already called (a second `resolve` does nothing). -/
structure ConfirmImagePromise where
  awaiting : Awaiting
  resolved : Bool
  deriving DecidableEq, Repr

/-- Content of the search results container. -/
inductive SearchResults where
  | blank
  | loading
  | emptyMessage (query : String)
  | errorMessage
  | grid (items : List Media)
  deriving DecidableEq, Repr

/-- Globals, the DOM nodes the client reads or writes, and the trace of
outward calls. -/
structure State where
  currentUser : Option User
  currentMedia : Option Media
  currentMediaToAdd : Option Media
  confirmImagePromise : Option ConfirmImagePromise
  navItems : List (String × Bool)
  contentSections : List (String × String)
  tvFilterActive : Option String
  moviesFilterActive : Option String
  userDisplayName : String
  tvShowCount : String
  movieCount : String
  continueCount : String
  tvShowsGrid : GridContent
  moviesGrid : GridContent
  continueWatchingGrid : GridContent
  searchInput : String
  searchType : String
  searchYear : String
  searchResults : SearchResults
  modalTitle : String
  modalYear : String
  modalOverview : String
  modalPosterSrc : String
  episodeSectionDisplay : String
  movieProgressSectionDisplay : String
  watchedEpisodes : String
  totalEpisodes : String
  currentSeason : String
  currentEpisode : String
  movieProgress : String
  progressPercentage : String
  modalStatusOptions : List (String × String)
  modalStatus : String
  removeMediaBtnDisplay : String
  mediaModalDisplay : String
  verifyTitle : String
  verifyPosterSrc : String
  verificationModalDisplay : String
  effects : List Effect
  deriving DecidableEq, Repr

/-- The state of a freshly loaded page: the three globals are `null`, nothing
is rendered, and the markup supplies the navigation items and sections. -/
def State.initial (navItems : List (String × Bool))
    (contentSections : List (String × String)) : State :=
  { currentUser := none, currentMedia := none, currentMediaToAdd := none
    confirmImagePromise := none
    navItems := navItems, contentSections := contentSections
    tvFilterActive := none, moviesFilterActive := none
    userDisplayName := "", tvShowCount := "", movieCount := "", continueCount := ""
    tvShowsGrid := .blank, moviesGrid := .blank, continueWatchingGrid := .blank
    searchInput := "", searchType := "all", searchYear := "", searchResults := .blank
    modalTitle := "", modalYear := "", modalOverview := "", modalPosterSrc := ""
    episodeSectionDisplay := "", movieProgressSectionDisplay := ""
    watchedEpisodes := "", totalEpisodes := "", currentSeason := "", currentEpisode := ""
    movieProgress := "", progressPercentage := ""
    modalStatusOptions := [], modalStatus := ""
    removeMediaBtnDisplay := "", mediaModalDisplay := "none"
    verifyTitle := "", verifyPosterSrc := "", verificationModalDisplay := "none"
    effects := [] }

/-- Append an outward call to the trace. -/
def State.emit (s : State) (e : Effect) : State :=
  { s with effects := s.effects ++ [e] }

/-- `showNotification(message, type)`. -/
def showNotification (message type : String) (s : State) : State :=
  s.emit (.notification message type)

/-! ## Loaders and navigation -/

/-- `loadTVShows(status)`, with the answer of the backend. -/
def loadTVShows (status : String) (net : Backend) (s : State) : State :=
  match s.currentUser with
  | none => s
  | some _ =>
    match net.media with
    | .thrown => showNotification "Network error loading TV shows" "error" s
    | .response ok media error =>
      if ok then { s with tvShowsGrid := renderMediaGrid (media.filter (tvShowsFilter status)) }
      else showNotification (strOr error "Failed to load TV shows") "error" s

/-- `loadMovies(status)`, with the answer of the backend. -/
def loadMovies (status : String) (net : Backend) (s : State) : State :=
  match s.currentUser with
  | none => s
  | some _ =>
    match net.media with
    | .thrown => showNotification "Network error loading movies" "error" s
    | .response ok media error =>
      if ok then { s with moviesGrid := renderMediaGrid (media.filter (moviesFilter status)) }
      else showNotification (strOr error "Failed to load movies") "error" s

/-- `loadContinueWatching()`, with the answer of the backend. -/
def loadContinueWatching (net : Backend) (s : State) : State :=
  match s.currentUser with
  | none => s
  | some _ =>
    match net.media with
    | .thrown => showNotification "Network error loading continue watching" "error" s
    | .response ok media error =>
      if ok then
        { s with continueWatchingGrid := renderMediaGrid (media.filter continueWatchingFilter) }
      else showNotification (strOr error "Failed to load continue watching") "error" s

/-- `loadDashboardData()`, with the answer of the backend.  The recent-activity
list that it refreshes afterwards is not part of the state. -/
def loadDashboardData (net : Backend) (s : State) : State :=
  match s.currentUser with
  | none => s
  | some user =>
    let s1 := { s with userDisplayName := user.username }
    match net.media with
    | .thrown => showNotification "Network error loading dashboard" "error" s1
    | .response ok media error =>
      if ok then
        { s1 with
          tvShowCount := natToStr (media.filter (fun m => m.type = "tv")).length
          movieCount := natToStr (media.filter (fun m => m.type = "movie")).length
          continueCount := natToStr (media.filter dashboardContinueFilter).length }
      else showNotification (strOr error "Failed to load media") "error" s1

/-- `getActiveFilter(sectionId)`: the `data-filter` of the active filter button
of the section, `|| "watching"`. -/
def getActiveFilter (sectionId : String) (s : State) : String :=
  let active : Option String :=
    if sectionId = "tv-shows-section" then s.tvFilterActive
    else if sectionId = "movies-section" then s.moviesFilterActive
    else none
  strOr (active.getD "") "watching"

/-- `navigateTo(section)`. -/
def navigateTo (section_ : String) (net : Backend) (s : State) : State :=
  let s1 :=
    { s with
      navItems := s.navItems.map (fun item => (item.1, decide (item.1 = section_)))
      contentSections := s.contentSections.map (fun sec =>
        (sec.1, if sec.1 = section_ ++ "-section" then "block" else "none")) }
  if section_ = "dashboard" then loadDashboardData net s1
  else if section_ = "tv-shows" then loadTVShows (getActiveFilter "tv-shows-section" s1) net s1
  else if section_ = "movies" then loadMovies (getActiveFilter "movies-section" s1) net s1
  else if section_ = "continue-watching" then loadContinueWatching net s1
  else s1

/-- The `data-section` of the first active navigation item:
`document.querySelector(".nav-item.active")`, `none` when there is none. -/
def activeNavSection (s : State) : Option String :=
  (s.navItems.find? (fun item => item.2)).map (fun item => item.1)

/-! ## Search -/

/-- The `year` of a mapped item: `date ? date.substring(0, 4) : "Unknown"`. -/
def extractYear (date : Option String) : String :=
  match date with
  | some d => if d = "" then "Unknown" else d.take 4
  | none => "Unknown"

/-- The object that `handleSearch` maps a catalog item to. -/
def mapItem (mediaType : String) (item : CatalogItem) : Media :=
  { id := mediaType ++ "-" ++ natToStr item.id
    tmdbId := some item.id
    type := mediaType
    title := if mediaType = "tv" then item.name else item.title
    year := if mediaType = "tv" then extractYear item.first_air_date
            else extractYear item.release_date
    overview := item.overview
    posterPath :=
      match item.poster_path with
      | some p => if p = "" then .null else .str ("https://image.tmdb.org/t/p/w500" ++ p)
      | none => .null
    poster_path := .undefined
    status := ""
    watched_episodes := none
    total_episodes := none
    season := none
    episode := none
    progress := none }

/-- The `searchTypes` of `handleSearch`. -/
def searchTypes (type : String) : List String :=
  if type = "all" then ["tv", "movie"] else [type]

/-- State of the `for` loop of `handleSearch`: the requests made so far and the
combined results, or the exception that left the loop. -/
structure SearchLoop where
  requested : List String
  combinedResults : List Media
  thrown : Bool
  deriving DecidableEq, Repr

/-- One iteration of the `for` loop of `handleSearch`. -/
def searchStep (net : Backend) (acc : SearchLoop) (mediaType : String) : SearchLoop :=
  if acc.thrown then acc
  else
    match net.search mediaType with
    | .thrown => { acc with requested := acc.requested ++ [mediaType], thrown := true }
    | .response none => { acc with requested := acc.requested ++ [mediaType] }
    | .response (some results) =>
      { acc with
        requested := acc.requested ++ [mediaType]
        combinedResults := acc.combinedResults ++ results.map (mapItem mediaType) }

/-- The `for` loop of `handleSearch` over `searchTypes`. -/
def searchLoop (net : Backend) (type : String) : SearchLoop :=
  (searchTypes type).foldl (searchStep net) { requested := [], combinedResults := [], thrown := false }

/-- The comparator of the sort: `Number(b.year) - Number(a.year)`. -/
def yearComparator (a b : Media) : JSNumber :=
  (jsNumber b.year).sub (jsNumber a.year)

/-- Whether the sort keeps `a` before `b`: the comparator value is not positive
(a `NaN` value counts as `+0`). -/
def sortKeeps (a b : Media) : Prop :=
  (yearComparator a b).isPositive = false

instance : DecidableRel sortKeeps := fun a b =>
  inferInstanceAs (Decidable ((yearComparator a b).isPositive = false))

/-- `Array.prototype.sort(comparator)` of the engine: for a consistent
comparator ECMAScript fixes the outcome (sorted, equal elements in their
original order), which a stable insertion sort computes; for an inconsistent
comparator the outcome is implementation-defined and this is one of them. -/
def arraySort (items : List Media) : List Media :=
  items.insertionSort sortKeeps

/-- `handleSearch()`. -/
def handleSearch (net : Backend) (s : State) : State :=
  let query := jsTrim s.searchInput
  let type := s.searchType
  let year := jsTrim s.searchYear
  if query = "" then showNotification "Please enter a search term" "error" s
  else
    let loop := searchLoop net type
    let s1 := { s with
      searchResults := .loading
      effects := s.effects ++ loop.requested.map (fun t => Effect.search t query year) }
    if loop.thrown then { s1 with searchResults := .errorMessage }
    else if loop.combinedResults.length = 0 then { s1 with searchResults := .emptyMessage query }
    else
      navigateTo "search" net { s1 with searchResults := .grid (arraySort loop.combinedResults) }

/-! ## Modal management -/

/-- Modelled from the spec: the page markup is not part of the source; the
elements of class `modal` that `closeAllModals` hides are the media modal and
the verification modal. -/
def hideModals (s : State) : State :=
  { s with mediaModalDisplay := "none", verificationModalDisplay := "none" }

/-- `closeAllModals()`. -/
def closeAllModals (s : State) : State :=
  { hideModals s with currentMedia := none, currentMediaToAdd := none }

/-- Assignment to the `value` of a `select`: the option of that value becomes
selected; with no such option nothing is selected and `value` reads `""`. -/
def selectValue (options : List (String × String)) (v : String) : String :=
  if options.any (fun o => o.1 = v) then v else ""

/-- `updateStatusOptions(statuses)`: the options are replaced (value and
label), and the first of them is the selected one. -/
def updateStatusOptions (statuses : List String) (s : State) : State :=
  { s with
    modalStatusOptions := statuses.map (fun st => (st, (formatStatus st).toStr))
    modalStatus := statuses.headD "" }

/-- `openAddMediaModal(media)`. -/
def openAddMediaModal (media : Media) (s : State) : State :=
  let s1 :=
    { s with
      currentMediaToAdd := some media
      currentMedia := none
      modalTitle := media.title
      modalYear := media.year
      modalOverview := strOr media.overview "No overview available"
      modalPosterSrc := (media.posterPath.or (.str "/static/images/placeholder.jpg")).toStr }
  let s2 :=
    if media.type = "tv" then
      updateStatusOptions ["to-watch", "watching", "completed", "dropped"]
        { s1 with
          episodeSectionDisplay := "block"
          movieProgressSectionDisplay := "none"
          watchedEpisodes := natToStr 0
          totalEpisodes := natOrText media.total_episodes "?"
          currentSeason := natToStr 1
          currentEpisode := natToStr 1 }
    else
      updateStatusOptions ["to-watch", "watching", "completed"]
        { s1 with
          episodeSectionDisplay := "none"
          movieProgressSectionDisplay := "block"
          movieProgress := natToStr 0
          progressPercentage := "0%" }
  { s2 with
    modalStatus := selectValue s2.modalStatusOptions "to-watch"
    removeMediaBtnDisplay := "none"
    mediaModalDisplay := "block" }

/-- `openEditMediaModal(media)`. -/
def openEditMediaModal (media : Media) (s : State) : State :=
  let s1 :=
    { s with
      currentMedia := some media
      currentMediaToAdd := none
      modalTitle := media.title
      modalYear := media.year
      modalOverview := strOr media.overview "No overview available"
      modalPosterSrc := (media.poster_path.or (.str "/static/images/placeholder.jpg")).toStr }
  let s2 :=
    if media.type = "tv" then
      updateStatusOptions ["to-watch", "watching", "completed", "dropped"]
        { s1 with
          episodeSectionDisplay := "block"
          movieProgressSectionDisplay := "none"
          watchedEpisodes := natToStr (natOr media.watched_episodes 0)
          totalEpisodes := natOrText media.total_episodes "?"
          currentSeason := natToStr (natOr media.season 1)
          currentEpisode := natToStr (natOr media.episode 1) }
    else
      updateStatusOptions ["to-watch", "watching", "completed"]
        { s1 with
          episodeSectionDisplay := "none"
          movieProgressSectionDisplay := "block"
          movieProgress := natToStr (natOr media.progress 0)
          progressPercentage := natToStr (natOr media.progress 0) ++ "%"
          currentSeason := natToStr 1
          currentEpisode := natToStr 1 }
  { s2 with
    modalStatus := selectValue s2.modalStatusOptions (strOr media.status "to-watch")
    removeMediaBtnDisplay := "inline-block"
    mediaModalDisplay := "block" }

/-- The test `obj?.type === "tv"` on a nullable global. -/
def isTv (m : Option Media) : Bool :=
  match m with
  | some media => media.type = "tv"
  | none => false

/-- `handleStatusChange()`. -/
def handleStatusChange (s : State) : State :=
  let status := s.modalStatus
  if isTv s.currentMedia || isTv s.currentMediaToAdd then
    let s1 :=
      if status = "watching" then { s with episodeSectionDisplay := "block" }
      else { s with episodeSectionDisplay := "none" }
    if status = "completed" then
      let total := s1.totalEpisodes
      if total ≠ "?" then { s1 with watchedEpisodes := total } else s1
    else s1
  else
    let s1 :=
      { s with episodeSectionDisplay := "none", movieProgressSectionDisplay := "block" }
    if status = "completed" then
      { s1 with movieProgress := natToStr 100, progressPercentage := "100%" }
    else s1

/-- `updateProgressPercentage()`. -/
def updateProgressPercentage (s : State) : State :=
  { s with progressPercentage := s.movieProgress ++ "%" }

/-! ## Poster verification and saving -/

/-- `verifyImageWithAI(title, imageUrl)`: the value it resolves to, given the
answer of the backend (`res.ok && data.is_match`, and `false` on a throw). -/
def verifyImageWithAI (answer : VerifyAnswer) : Bool :=
  match answer with
  | .response ok is_match => ok && is_match
  | .thrown => false

/-- `verifyImage(title, imageUrl)`: shows the verification modal and stores the
resolver; `awaiting` is the caller that awaits the returned promise.
`verifyPosterSrc` holds the `src` attribute as assigned. -/
def verifyImage (title : String) (imageUrl : JSVal) (awaiting : Awaiting) (s : State) : State :=
  { s with
    verifyTitle := title
    verifyPosterSrc := imageUrl.toStr
    verificationModalDisplay := "block"
    confirmImagePromise := some { awaiting := awaiting, resolved := false } }

/-- The `payload` object of `saveMediaDetails`. -/
def buildPayload (user : User) (frame : SaveFrame) (poster : JSVal) : Payload :=
  { id := frame.mediaObj.id
    username := user.username
    type := frame.mediaObj.type
    title := frame.mediaObj.title
    year := strOr frame.mediaObj.year ""
    overview := strOr frame.mediaObj.overview ""
    poster_path := poster
    status := frame.status
    watched_episodes := frame.watched_episodes
    total_episodes := natOr frame.mediaObj.total_episodes 0
    progress := frame.progress
    season := frame.season
    episode := frame.episode }

/-- The `url` and `method` of the persist request: `PUT /media/{id}` when
`currentMedia` is set at that moment, `POST /media` otherwise. -/
def persistTarget (s : State) (mediaObj : Media) : String × String :=
  match s.currentMedia with
  | some _ => ("/media/" ++ mediaObj.id, "PUT")
  | none => ("/media", "POST")

/-- The part of `saveMediaDetails` after the poster is known: builds the
payload and sends it.  The globals are read here, when this part runs. -/
def saveMediaDetailsSend (net : Backend) (frame : SaveFrame) (poster : JSVal) (s : State) : State :=
  match s.currentUser with
  | none => s
  | some user =>
    let payload := buildPayload user frame poster
    let target := persistTarget s frame.mediaObj
    let s1 := s.emit (.persist target.2 target.1 payload)
    match net.persist with
    | .thrown => showNotification "Network error saving media" "error" s1
    | .response ok error =>
      if ok then
        let s2 := showNotification
          (if s1.currentMedia.isSome then "Media updated successfully"
           else "Media added successfully") "success" s1
        let s3 := closeAllModals s2
        match activeNavSection s3 with
        | none => showNotification "Network error saving media" "error" s3
        | some currentSection =>
          if currentSection = "tv-shows" then
            loadTVShows (strOr (s3.tvFilterActive.getD "") "watching") net s3
          else if currentSection = "movies" then
            loadMovies (strOr (s3.moviesFilterActive.getD "") "to-watch") net s3
          else loadDashboardData net s3
      else showNotification (strOr error "Failed to save media") "error" s1

/-- The locals that `saveMediaDetails` reads from the form before the poster
verification. -/
def readForm (mediaObj : Media) (s : State) : SaveFrame :=
  { mediaObj := mediaObj
    status := s.modalStatus
    watched_episodes :=
      if mediaObj.type = "tv" then numOr (parseInt s.watchedEpisodes) 0 else 0
    season :=
      if mediaObj.type = "tv" then some (numOr (parseInt s.currentSeason) 1) else none
    episode :=
      if mediaObj.type = "tv" then some (numOr (parseInt s.currentEpisode) 1) else none
    progress :=
      if mediaObj.type = "movie" then numOr (parseInt s.movieProgress) 0 else 0 }

/-- The `mediaObj` of `saveMediaDetails`: `currentMedia || currentMediaToAdd`. -/
def openMedia (s : State) : Option Media :=
  s.currentMedia.orElse (fun _ => s.currentMediaToAdd)

/-- `saveMediaDetails()`, up to the first point where it waits for the user:
either it runs to its end (the poster was verified), or it is left suspended on
the promise of `verifyImage`. -/
def saveMediaDetails (net : Backend) (s : State) : State :=
  match s.currentUser with
  | none => s
  | some _ =>
    match openMedia s with
    | none => s
    | some mediaObj =>
      let frame := readForm mediaObj s
      let poster := mediaObj.posterPath.or mediaObj.poster_path
      let s1 := s.emit (.verifyImage mediaObj.title poster)
      if verifyImageWithAI net.verify then saveMediaDetailsSend net frame poster s1
      else verifyImage mediaObj.title poster (.saveMediaDetails frame) s1

/-- The click handler of a search result card, up to the first point where it
waits for the user.  The handler assigns the confirmed URL to the `posterPath`
of the card's object; that the card keeps this object is not modelled. -/
def searchResultCardClick (media : Media) (net : Backend) (s : State) : State :=
  if media.posterPath.truthy then
    let s1 := s.emit (.verifyImage media.title media.posterPath)
    if verifyImageWithAI net.verify then openAddMediaModal media s1
    else verifyImage media.title media.posterPath (.searchCardClick media) s1
  else openAddMediaModal media s

/-- `confirmImage()`: resolves the stored promise with the `src` property of the
verification poster (its `src` attribute resolved against the page) and closes
all modals; the caller suspended on the promise resumes after that, with that
URL. -/
def confirmImage (net : Backend) (s : State) : State :=
  match s.confirmImagePromise with
  | none => s
  | some promise =>
    let url := net.resolveUrl s.verifyPosterSrc
    let s1 := closeAllModals
      { s with confirmImagePromise := some { promise with resolved := true } }
    if promise.resolved then s1
    else
      match promise.awaiting with
      | .saveMediaDetails frame => saveMediaDetailsSend net frame (.str url) s1
      | .searchCardClick media => openAddMediaModal { media with posterPath := .str url } s1

/-! ## Observations on a trace -/

/-- The persist requests of a trace, in order: method, URL and body. -/
def persistRequests (effects : List Effect) : List (String × String × Payload) :=
  effects.filterMap (fun e =>
    match e with
    | .persist method url body => some (method, url, body)
    | _ => none)

/-- Position of a Number among the infinities: `-1` for `-Infinity`, `1` for
`Infinity`, `0` otherwise. -/
def JSNumber.cls : JSNumber → Int
  | .infinity true => -1
  | .infinity false => 1
  | _ => 0

/-- The rational value of a finite Number (`0` for the others). -/
def JSNumber.val : JSNumber → ℚ
  | .finite negative num den =>
    if negative then -((num : ℚ) / (den : ℚ)) else (num : ℚ) / (den : ℚ)
  | _ => 0

/-- The numeric order `x ≤ y` on Numbers other than `NaN`. -/
def JSNumber.le (x y : JSNumber) : Prop :=
  x.cls < y.cls ∨ (x.cls = y.cls ∧ x.val ≤ y.val)

/-- A finite Number is written with a positive denominator and is a multiple of
`2 ^ (-1074)`, as every binary64 value is. -/
def JSNumber.OnGrid : JSNumber → Prop
  | .finite _ num den => 0 < den ∧ ∃ k, num * 2 ^ 1074 = k * den
  | _ => True

/-- Two items are in non-increasing order of `Number(year)`, both years being
numeric (not `NaN`). -/
def YearDesc (a b : Media) : Prop :=
  jsNumber a.year ≠ .nan ∧ jsNumber b.year ≠ .nan ∧
    (jsNumber b.year).le (jsNumber a.year)

/-- The percentage in the words of the specification: the exact rational
`watched * 100 / total` rounded to the nearest integer, halves rounded up, and
`0` when `total` is `0`. -/
def exactPercent (watched total : Nat) : Nat :=
  if total = 0 then 0 else (200 * watched + total) / (2 * total)

/-! ## Sample data -/

/-- A stored movie record. -/
def sampleMovie : Media :=
  { id := "7", type := "movie", title := "Dune", year := "2021", overview := "Arrakis"
    tmdbId := none, posterPath := .undefined
    poster_path := .str "https://image.tmdb.org/t/p/w500/dune.jpg"
    status := "watching", watched_episodes := some 0, total_episodes := some 0
    season := none, episode := none, progress := some 40 }

/-- A stored TV record. -/
def sampleShow : Media :=
  { id := "9", type := "tv", title := "Severance", year := "2022", overview := "Lumon"
    tmdbId := none, posterPath := .undefined
    poster_path := .str "https://image.tmdb.org/t/p/w500/sev.jpg"
    status := "watching", watched_episodes := some 29, total_episodes := some 200
    season := some 2, episode := some 3, progress := some 0 }

/-- A search result for a TV show. -/
def sampleResult : Media :=
  { id := "tv-95396", type := "tv", title := "Severance", year := "2022", overview := "Lumon"
    tmdbId := some 95396, posterPath := .str "https://image.tmdb.org/t/p/w500/sev.jpg"
    poster_path := .undefined
    status := "", watched_episodes := none, total_episodes := none
    season := none, episode := none, progress := none }

/-- A logged-in session on the dashboard with no modal open. -/
def sampleSession : State :=
  { State.initial [("dashboard", true), ("tv-shows", false), ("movies", false)]
      [("dashboard-section", "block"), ("tv-shows-section", "none"),
       ("movies-section", "none")] with
    currentUser := some { username := "ann" } }

/-- URL resolution for a page served from `http://localhost/`, on the three
shapes the samples use: an absolute `http(s)` URL is itself, a path starting
with `/` is put after the origin, anything else is taken relative to the root. -/
def sampleResolveUrl (url : String) : String :=
  if "http://".toList.isPrefixOf url.toList || "https://".toList.isPrefixOf url.toList then url
  else if "/".toList.isPrefixOf url.toList then "http://localhost" ++ url
  else "http://localhost/" ++ url

/-- A backend whose verification answers as given, whose persist answers as
given, and that has no media and no catalog matches. -/
def sampleBackend (verify : VerifyAnswer) (persist : PersistAnswer) : Backend :=
  { verify := verify, persist := persist
    media := .response true [] ""
    search := fun _ => .response (some [])
    resolveUrl := sampleResolveUrl }

/-- A stored movie record whose poster is a path on the site itself. -/
def sampleLocal : Media :=
  { id := "5", type := "movie", title := "Solaris", year := "1972", overview := "Ocean"
    tmdbId := none, posterPath := .undefined
    poster_path := .str "/static/posters/solaris.jpg"
    status := "to-watch", watched_episodes := some 0, total_episodes := some 0
    season := none, episode := none, progress := some 0 }

/-- A catalog answer for the TV search. -/
def sampleShows : List CatalogItem :=
  [{ id := 95396, name := "Severance", title := "", first_air_date := some "2022-02-17"
     release_date := none, overview := "Lumon", poster_path := some "/sev.jpg" },
   { id := 1, name := "Untitled", title := "", first_air_date := some ""
     release_date := none, overview := "", poster_path := none }]

/-- A catalog answer for the movie search. -/
def sampleFilms : List CatalogItem :=
  [{ id := 438631, name := "", title := "Dune", first_air_date := none
     release_date := some "2021-09-15", overview := "Arrakis", poster_path := some "/dune.jpg" }]

/-- A backend that answers the two catalog searches with `sampleShows` and
`sampleFilms`. -/
def sampleCatalog : Backend :=
  { verify := .thrown, persist := .thrown, media := .thrown
    search := fun t =>
      if t = "tv" then .response (some sampleShows)
      else if t = "movie" then .response (some sampleFilms)
      else .response none
    resolveUrl := sampleResolveUrl }

/-- The records a grid shows: the record behind each card, in order (none for
a blank grid or the empty-state message). -/
def gridRecords (g : GridContent) : List Media :=
  match g with
  | .cards cs => cs.map (fun c => c.onclick)
  | _ => []

/-- The continue-watching condition in the words of the specification:
`status == watching OR (type == movie && 0 < progress < 100)`. -/
def IsContinueWatching (m : Media) : Prop :=
  m.status = "watching" ∨ (m.type = "movie" ∧ ∃ p, m.progress = some p ∧ 0 < p ∧ p < 100)

/-- A call of one of the four functions that assign the modal globals. -/
inductive ModalCall where
  | openAddMediaModal (media : Media)
  | openEditMediaModal (media : Media)
  | closeAllModals
  | confirmImage (net : Backend)

/-- The effect of a call on the state. -/
def ModalCall.apply (c : ModalCall) (s : State) : State :=
  match c with
  | .openAddMediaModal media => ShowTracker.openAddMediaModal media s
  | .openEditMediaModal media => ShowTracker.openEditMediaModal media s
  | .closeAllModals => ShowTracker.closeAllModals s
  | .confirmImage net => ShowTracker.confirmImage net s

/-- The state after a sequence of calls, first call first. -/
def runCalls (calls : List ModalCall) (s : State) : State :=
  calls.foldl (fun t c => c.apply t) s

/-- A stored movie record the user plans to watch. -/
def sampleQueued : Media :=
  { id := "8", type := "movie", title := "Arrival", year := "2016", overview := "Heptapods"
    tmdbId := none, posterPath := .undefined
    poster_path := .str "https://image.tmdb.org/t/p/w500/arrival.jpg"
    status := "to-watch", watched_episodes := some 0, total_episodes := some 0
    season := none, episode := none, progress := some 0 }

/-- A stored movie record left half-way: status `to-watch`, progress 55. -/
def samplePaused : Media :=
  { id := "6", type := "movie", title := "Tenet", year := "2020", overview := "Inversion"
    tmdbId := none, posterPath := .undefined
    poster_path := .str "https://image.tmdb.org/t/p/w500/tenet.jpg"
    status := "to-watch", watched_episodes := some 0, total_episodes := some 0
    season := none, episode := none, progress := some 55 }

/-- A backend that holds four records and answers every request with success. -/
def sampleLibrary : Backend :=
  { verify := .response true true, persist := .response true ""
    media := .response true [sampleQueued, sampleShow, samplePaused, sampleMovie] ""
    search := fun _ => .response (some [])
    resolveUrl := sampleResolveUrl }

/-- Search results whose years are numeric strings of several shapes: signed,
plain, with an exponent, with a fraction, hexadecimal. -/
def sampleYears : List Media :=
  ["-500", "2000", "1999", "1e3", "12.5", "0x1F", "+200"].map
    (fun y => { sampleResult with year := y })

/-! # Theorems -/

/-! ## Traces -/

theorem persistRequests_append (a b : List Effect) :
    persistRequests (a ++ b) = persistRequests a ++ persistRequests b := by
  simp [persistRequests, List.filterMap_append]

theorem persistRequests_notification (message type : String) :
    persistRequests [Effect.notification message type] = [] := rfl

theorem persistRequests_verifyImage (title : String) (url : JSVal) :
    persistRequests [Effect.verifyImage title url] = [] := rfl

theorem persistRequests_persist (method url : String) (body : Payload) :
    persistRequests [Effect.persist method url body] = [(method, url, body)] := rfl

theorem effects_loadTVShows (status : String) (net : Backend) (s : State) :
    persistRequests (loadTVShows status net s).effects = persistRequests s.effects := by
  unfold loadTVShows
  repeat' split
  all_goals simp [showNotification, State.emit, persistRequests_append,
    persistRequests_notification]

theorem effects_loadMovies (status : String) (net : Backend) (s : State) :
    persistRequests (loadMovies status net s).effects = persistRequests s.effects := by
  unfold loadMovies
  repeat' split
  all_goals simp [showNotification, State.emit, persistRequests_append,
    persistRequests_notification]

theorem effects_loadDashboardData (net : Backend) (s : State) :
    persistRequests (loadDashboardData net s).effects = persistRequests s.effects := by
  unfold loadDashboardData
  repeat' split
  all_goals simp [showNotification, State.emit, persistRequests_append,
    persistRequests_notification]

theorem persistRequests_emit_verifyImage (s : State) (title : String) (url : JSVal) :
    persistRequests (s.emit (.verifyImage title url)).effects = persistRequests s.effects := by
  simp [State.emit, persistRequests, List.filterMap_append]

/-- What `saveMediaDetailsSend` adds to the persist requests: exactly one
request, to the target read from the globals at that moment, with the payload
built from the frame and the poster. -/
theorem persistRequests_saveMediaDetailsSend (net : Backend) (frame : SaveFrame)
    (poster : JSVal) (s : State) (user : User) (hu : s.currentUser = some user) :
    persistRequests (saveMediaDetailsSend net frame poster s).effects =
      persistRequests s.effects ++
        [((persistTarget s frame.mediaObj).2, (persistTarget s frame.mediaObj).1,
          buildPayload user frame poster)] := by
  unfold saveMediaDetailsSend
  rw [hu]
  simp only []
  repeat' split
  all_goals simp [showNotification, State.emit, effects_loadTVShows,
    effects_loadMovies, effects_loadDashboardData, closeAllModals, hideModals]
  all_goals simp [persistRequests, List.filterMap_append]

theorem saveMediaDetails_verified (net : Backend) (s : State) (user : User)
    (mediaObj : Media) (hu : s.currentUser = some user) (hm : openMedia s = some mediaObj)
    (hv : verifyImageWithAI net.verify = true) :
    saveMediaDetails net s =
      saveMediaDetailsSend net (readForm mediaObj s)
        (mediaObj.posterPath.or mediaObj.poster_path)
        (s.emit (.verifyImage mediaObj.title (mediaObj.posterPath.or mediaObj.poster_path))) := by
  simp [saveMediaDetails, hu, hm, hv]

theorem saveMediaDetails_unverified (net : Backend) (s : State) (user : User)
    (mediaObj : Media) (hu : s.currentUser = some user) (hm : openMedia s = some mediaObj)
    (hv : verifyImageWithAI net.verify = false) :
    saveMediaDetails net s =
      verifyImage mediaObj.title (mediaObj.posterPath.or mediaObj.poster_path)
        (.saveMediaDetails (readForm mediaObj s))
        (s.emit (.verifyImage mediaObj.title (mediaObj.posterPath.or mediaObj.poster_path))) := by
  simp [saveMediaDetails, hu, hm, hv]

/-- A confirmation of a pending save sends one persist request, whose payload
is built from the suspended frame and the URL the verification poster displays
at that moment (its `src` property), to the target read after
`closeAllModals`. -/
theorem persistRequests_confirmImage (net : Backend) (t : State) (user : User)
    (frame : SaveFrame) (hu : t.currentUser = some user)
    (hp : t.confirmImagePromise = some ⟨.saveMediaDetails frame, false⟩) :
    persistRequests (confirmImage net t).effects =
      persistRequests t.effects ++
        [("POST", "/media",
          buildPayload user frame (.str (net.resolveUrl t.verifyPosterSrc)))] := by
  have h : confirmImage net t =
      saveMediaDetailsSend net frame (.str (net.resolveUrl t.verifyPosterSrc))
        (closeAllModals { t with
          confirmImagePromise := some ⟨.saveMediaDetails frame, true⟩ }) := by
    simp [confirmImage, hp]
  rw [h, persistRequests_saveMediaDetailsSend net frame _ _ user
    (by simp [closeAllModals, hideModals, hu])]
  simp [closeAllModals, hideModals, persistTarget]

/-! ## The claims -/

/-- C1 (defect of the code). An edit-pending save of the record with id 7 whose
poster is approved by the AI verification is sent as `PUT /media/7`, but the
same save, when the poster has to be confirmed in the manual-confirmation
modal, is sent as `POST /media`: `confirmImage` runs `closeAllModals` before
the suspended save resumes, so `currentMedia` is `null` when the method is
chosen. -/
theorem edit_save_after_confirmation_is_post :
    (openEditMediaModal sampleMovie sampleSession).currentMedia = some sampleMovie ∧
    (persistRequests (saveMediaDetails
        (sampleBackend (.response true true) (.response true ""))
        (openEditMediaModal sampleMovie sampleSession)).effects).map
      (fun r => (r.1, r.2.1)) = [("PUT", "/media/7")] ∧
    (persistRequests (confirmImage
        (sampleBackend (.response true false) (.response true ""))
        (saveMediaDetails (sampleBackend (.response true false) (.response true ""))
          (openEditMediaModal sampleMovie sampleSession))).effects).map
      (fun r => (r.1, r.2.1)) = [("POST", "/media")] := by
  decide

/-- C2. With a user logged in and a record open, the `poster_path` that
`saveMediaDetails` sends is the candidate URL unchanged when the AI
verification returns a match.  Otherwise (`is_match` false, a non-2xx answer or
a thrown error, which all make `verifyImageWithAI` false and lead to the same
state) no persist request is issued, the verification modal is opened with the
candidate assigned to the `src` attribute of its poster, and whenever
`confirmImage` is later called on this pending save the one request it issues
carries the URL the verification poster displays at that moment: the `src`
property of the image, which is its `src` attribute resolved against the
page. -/
theorem save_poster_path (net net2 : Backend) (s : State) (user : User) (mediaObj : Media)
    (hu : s.currentUser = some user) (hm : openMedia s = some mediaObj) :
    (verifyImageWithAI net.verify = true →
      ∃ method url body,
        persistRequests (saveMediaDetails net s).effects =
          persistRequests s.effects ++ [(method, url, body)] ∧
        body.poster_path = mediaObj.posterPath.or mediaObj.poster_path) ∧
    (verifyImageWithAI net.verify = false →
      persistRequests (saveMediaDetails net s).effects = persistRequests s.effects ∧
      (saveMediaDetails net s).verificationModalDisplay = "block" ∧
      (saveMediaDetails net s).verifyTitle = mediaObj.title ∧
      (saveMediaDetails net s).verifyPosterSrc =
        (mediaObj.posterPath.or mediaObj.poster_path).toStr ∧
      (∀ net3 : Backend, verifyImageWithAI net3.verify = false →
        saveMediaDetails net3 s = saveMediaDetails net s) ∧
      ∀ t : State, t.confirmImagePromise = (saveMediaDetails net s).confirmImagePromise →
        t.currentUser.isSome = true →
        ∃ method url body,
          persistRequests (confirmImage net2 t).effects =
            persistRequests t.effects ++ [(method, url, body)] ∧
          body.poster_path = .str (net2.resolveUrl t.verifyPosterSrc)) ∧
    (∀ is_match, verifyImageWithAI (.response false is_match) = false) ∧
    verifyImageWithAI (.response true false) = false ∧
    verifyImageWithAI .thrown = false := by
  refine ⟨?_, ?_, fun _ => rfl, rfl, rfl⟩
  · intro hv
    rw [saveMediaDetails_verified net s user mediaObj hu hm hv,
      persistRequests_saveMediaDetailsSend net _ _ _ user (by simp [State.emit, hu]),
      persistRequests_emit_verifyImage]
    exact ⟨_, _, _, rfl, rfl⟩
  · intro hv
    rw [saveMediaDetails_unverified net s user mediaObj hu hm hv]
    refine ⟨persistRequests_emit_verifyImage s _ _, rfl, rfl, rfl, ?_, ?_⟩
    · intro net3 hv3
      rw [saveMediaDetails_unverified net3 s user mediaObj hu hm hv3]
    · intro t ht hut
      obtain ⟨u2, hu2⟩ := Option.isSome_iff_exists.mp hut
      have hp : t.confirmImagePromise =
          some ⟨.saveMediaDetails (readForm mediaObj s), false⟩ := by
        rw [ht]; rfl
      exact ⟨_, _, _, persistRequests_confirmImage net2 t u2 _ hu2 hp, rfl⟩

/-- Instance of `save_poster_path` on both poster paths: a stored movie whose
poster is a path on the site, opened for editing by the logged-in user.  With an
approving verification the path itself is sent; with a rejecting verification
nothing is sent until the confirmation, which sends the URL the poster displays,
`http://localhost/static/posters/solaris.jpg`. -/
theorem save_poster_path_witness :
    (openEditMediaModal sampleLocal sampleSession).currentUser = some { username := "ann" } ∧
    openMedia (openEditMediaModal sampleLocal sampleSession) = some sampleLocal ∧
    (∃ method url body,
      persistRequests (saveMediaDetails
          (sampleBackend (.response true true) (.response true ""))
          (openEditMediaModal sampleLocal sampleSession)).effects =
        persistRequests (openEditMediaModal sampleLocal sampleSession).effects ++
          [(method, url, body)] ∧
      body.poster_path = sampleLocal.posterPath.or sampleLocal.poster_path) ∧
    (∃ method url body,
      persistRequests (confirmImage
          (sampleBackend (.response true false) (.response true ""))
          (saveMediaDetails (sampleBackend (.response true false) (.response true ""))
            (openEditMediaModal sampleLocal sampleSession))).effects =
        persistRequests (saveMediaDetails
            (sampleBackend (.response true false) (.response true ""))
            (openEditMediaModal sampleLocal sampleSession)).effects ++
          [(method, url, body)] ∧
      body.poster_path =
        .str ((sampleBackend (.response true false) (.response true "")).resolveUrl
          (saveMediaDetails (sampleBackend (.response true false) (.response true ""))
            (openEditMediaModal sampleLocal sampleSession)).verifyPosterSrc)) ∧
    (saveMediaDetails (sampleBackend (.response true false) (.response true ""))
      (openEditMediaModal sampleLocal sampleSession)).verifyPosterSrc =
      "/static/posters/solaris.jpg" ∧
    (sampleBackend (.response true false) (.response true "")).resolveUrl
      (saveMediaDetails (sampleBackend (.response true false) (.response true ""))
        (openEditMediaModal sampleLocal sampleSession)).verifyPosterSrc =
      "http://localhost/static/posters/solaris.jpg" :=
  ⟨by decide, by decide,
    (save_poster_path (sampleBackend (.response true true) (.response true ""))
      (sampleBackend (.response true true) (.response true ""))
      (openEditMediaModal sampleLocal sampleSession) { username := "ann" } sampleLocal
      (by decide) (by decide)).1 (by decide),
    ((save_poster_path (sampleBackend (.response true false) (.response true ""))
      (sampleBackend (.response true false) (.response true ""))
      (openEditMediaModal sampleLocal sampleSession) { username := "ann" } sampleLocal
      (by decide) (by decide)).2.1 (by decide)).2.2.2.2.2
        (saveMediaDetails (sampleBackend (.response true false) (.response true ""))
          (openEditMediaModal sampleLocal sampleSession)) rfl (by decide),
    by decide, by decide⟩

/-- C3 (defect of the code). When the persist request fails after the poster
was approved by the AI verification, the modal state is left as it was
(`currentMedia` still set, media modal still displayed); when the poster went
through the manual confirmation, the failed save leaves `currentMedia` and
`currentMediaToAdd` both `null` and the media modal hidden, because
`confirmImage` ran `closeAllModals` before the request was sent. -/
theorem failed_save_after_confirmation_loses_modal_state :
    (openEditMediaModal sampleMovie sampleSession).currentMedia = some sampleMovie ∧
    (openEditMediaModal sampleMovie sampleSession).mediaModalDisplay = "block" ∧
    (saveMediaDetails (sampleBackend (.response true true) (.response false "boom"))
      (openEditMediaModal sampleMovie sampleSession)).currentMedia = some sampleMovie ∧
    (saveMediaDetails (sampleBackend (.response true true) (.response false "boom"))
      (openEditMediaModal sampleMovie sampleSession)).mediaModalDisplay = "block" ∧
    (confirmImage (sampleBackend (.response true false) (.response false "boom"))
      (saveMediaDetails (sampleBackend (.response true false) (.response false "boom"))
        (openEditMediaModal sampleMovie sampleSession))).currentMedia = none ∧
    (confirmImage (sampleBackend (.response true false) (.response false "boom"))
      (saveMediaDetails (sampleBackend (.response true false) (.response false "boom"))
        (openEditMediaModal sampleMovie sampleSession))).currentMediaToAdd = none ∧
    (confirmImage (sampleBackend (.response true false) (.response false "boom"))
      (saveMediaDetails (sampleBackend (.response true false) (.response false "boom"))
        (openEditMediaModal sampleMovie sampleSession))).mediaModalDisplay = "none" ∧
    (confirmImage (sampleBackend (.response true false) (.response false "boom"))
      (saveMediaDetails (sampleBackend (.response true false) (.response false "boom"))
        (openEditMediaModal sampleMovie sampleSession))).effects.getLast? =
      some (.notification "boom" "error") := by
  decide

/-- Passthrough of `formatStatus` on every string that is neither a status
code nor the name of a property inherited from `Object.prototype`. -/
theorem formatStatus_passthrough (status : String)
    (h1 : status ∉ statusMap.map Prod.fst) (h2 : status ∉ objectPrototypeKeys) :
    formatStatus status = .str status := by
  have hl : statusMap.lookup status = none := by
    simp only [statusMap, List.map, List.mem_cons, List.mem_singleton, List.not_mem_nil,
      or_false, not_or] at h1
    obtain ⟨a, b, c, d⟩ := h1
    have a2 : (status == "to-watch") = false := by simpa using a
    have b2 : (status == "watching") = false := by simpa using b
    have c2 : (status == "completed") = false := by simpa using c
    have d2 : (status == "dropped") = false := by simpa using d
    simp [statusMap, List.lookup, a2, b2, c2, d2]
  simp [formatStatus, getProp, hl, h2, JSVal.or, JSVal.truthy]

/-- C5 (defect of the code). `formatStatus` maps the four status codes to their
labels and passes an unknown code such as `unknown-code` through, but for
`constructor` and `toString` the lookup `map[status]` finds the member
inherited from `Object.prototype`, which is truthy, so the result is that
built-in and not the input string. -/
theorem formatStatus_inherited_member_not_passed_through :
    formatStatus "to-watch" = .str "Plan to Watch" ∧
    formatStatus "watching" = .str "Watching" ∧
    formatStatus "completed" = .str "Completed" ∧
    formatStatus "dropped" = .str "Dropped" ∧
    formatStatus "unknown-code" = .str "unknown-code" ∧
    formatStatus "constructor" = .builtin "Object.prototype.constructor" ∧
    formatStatus "toString" = .builtin "Object.prototype.toString" ∧
    formatStatus "constructor" ≠ .str "constructor" ∧
    formatStatus "toString" ≠ .str "toString" := by
  decide

/-- With exactly one of the two globals set, to a record that is not a TV
show, and the status control on `completed`, `handleStatusChange` writes 100
into the slider and its label and shows the slider section. -/
theorem handleStatusChange_movie_completed (s : State) (m : Media)
    (hopen : (s.currentMedia = some m ∧ s.currentMediaToAdd = none) ∨
      (s.currentMedia = none ∧ s.currentMediaToAdd = some m))
    (hmovie : m.type = "movie") (hstatus : s.modalStatus = "completed") :
    handleStatusChange s =
      { s with
        episodeSectionDisplay := "none", movieProgressSectionDisplay := "block"
        movieProgress := "100", progressPercentage := "100%" } := by
  have hne : ¬ (m.type = "tv") := by rw [hmovie]; decide
  have h100 : natToStr 100 = "100" := by decide
  rcases hopen with ⟨h1, h2⟩ | ⟨h1, h2⟩ <;>
    simp [handleStatusChange, isTv, h1, h2, hne, hstatus, h100]

theorem openMedia_of_open (s : State) (m : Media)
    (hopen : (s.currentMedia = some m ∧ s.currentMediaToAdd = none) ∨
      (s.currentMedia = none ∧ s.currentMediaToAdd = some m)) :
    openMedia s = some m := by
  rcases hopen with ⟨h1, h2⟩ | ⟨h1, h2⟩ <;> simp [openMedia, h1, h2, Option.orElse]

/-- C6. For a movie open in the modal (add-pending or edit-pending), whatever
the slider held, `handleStatusChange` with the status control on `completed`
leaves the slider value `100` and the label `100%`; with a user logged in, a
save made right after sends `progress = 100`, both when the poster is verified
by the AI and when it is confirmed by hand. -/
theorem movie_completed_forces_progress (net net2 : Backend) (s : State) (m : Media)
    (hopen : (s.currentMedia = some m ∧ s.currentMediaToAdd = none) ∨
      (s.currentMedia = none ∧ s.currentMediaToAdd = some m))
    (hmovie : m.type = "movie") (hstatus : s.modalStatus = "completed") :
    (handleStatusChange s).movieProgress = "100" ∧
    (handleStatusChange s).progressPercentage = "100%" ∧
    (s.currentUser.isSome = true → verifyImageWithAI net.verify = true →
      ∃ method url body,
        persistRequests (saveMediaDetails net (handleStatusChange s)).effects =
          persistRequests s.effects ++ [(method, url, body)] ∧ body.progress = 100) ∧
    (s.currentUser.isSome = true → verifyImageWithAI net.verify = false →
      ∃ method url body,
        persistRequests
            (confirmImage net2 (saveMediaDetails net (handleStatusChange s))).effects =
          persistRequests s.effects ++ [(method, url, body)] ∧ body.progress = 100) := by
  have hs := handleStatusChange_movie_completed s m hopen hmovie hstatus
  have hm : openMedia (handleStatusChange s) = some m := by
    rw [hs]; exact openMedia_of_open s m hopen
  have hp : (readForm m (handleStatusChange s)).progress = 100 := by
    have h100 : numOr (parseInt "100") 0 = 100 := by decide
    rw [hs]; simp [readForm, hmovie, h100]
  refine ⟨by rw [hs], by rw [hs], ?_, ?_⟩
  · intro hu hv
    obtain ⟨user, hu⟩ := Option.isSome_iff_exists.mp hu
    have hu2 : (handleStatusChange s).currentUser = some user := by rw [hs]; exact hu
    rw [saveMediaDetails_verified net _ user m hu2 hm hv,
      persistRequests_saveMediaDetailsSend net _ _ _ user (by simp [State.emit, hu2]),
      persistRequests_emit_verifyImage]
    have he : persistRequests (handleStatusChange s).effects = persistRequests s.effects := by
      rw [hs]
    rw [he]
    exact ⟨_, _, _, rfl, hp⟩
  · intro hu hv
    obtain ⟨user, hu⟩ := Option.isSome_iff_exists.mp hu
    have hu2 : (handleStatusChange s).currentUser = some user := by rw [hs]; exact hu
    have hsave := saveMediaDetails_unverified net _ user m hu2 hm hv
    have : persistRequests (verifyImage m.title (m.posterPath.or m.poster_path)
        (.saveMediaDetails (readForm m (handleStatusChange s)))
        ((handleStatusChange s).emit
          (.verifyImage m.title (m.posterPath.or m.poster_path)))).effects =
        persistRequests s.effects := by
      rw [hs]; simp [verifyImage, State.emit, persistRequests, List.filterMap_append]
    rw [persistRequests_confirmImage net2 _ user (readForm m (handleStatusChange s))
      (by rw [hsave]; simp [verifyImage, State.emit, hu2]) (by rw [hsave]; rfl), hsave, this]
    exact ⟨_, _, _, rfl, hp⟩

/-- Instance of `movie_completed_forces_progress`: the stored movie opened for editing (slider at 40) with the status control set to `completed`. -/
theorem movie_completed_forces_progress_witness :
    ((openEditMediaModal sampleMovie sampleSession).currentMedia = some sampleMovie ∧
      (openEditMediaModal sampleMovie sampleSession).currentMediaToAdd = none) ∧
    sampleMovie.type = "movie" ∧
    (handleStatusChange
      { openEditMediaModal sampleMovie sampleSession with modalStatus := "completed" }).movieProgress
      = "100" :=
  ⟨by decide, by decide,
    (movie_completed_forces_progress (sampleBackend (.response true true) (.response true ""))
      (sampleBackend (.response true true) (.response true ""))
      { openEditMediaModal sampleMovie sampleSession with modalStatus := "completed" }
      sampleMovie (Or.inl (by decide)) (by decide) (by decide)).1⟩

/-- C7. For a TV record open in the modal and the status control on
`completed`, whatever the watched-episodes field held: when the total-episodes
display is not `?`, `handleStatusChange` leaves the watched-episodes field equal
to that total; when it is `?`, the field is left unchanged.  The display itself
is not changed. -/
theorem tv_completed_forces_watched (s : State) (m : Media)
    (hopen : (s.currentMedia = some m ∧ s.currentMediaToAdd = none) ∨
      (s.currentMedia = none ∧ s.currentMediaToAdd = some m))
    (htv : m.type = "tv") (hstatus : s.modalStatus = "completed") :
    (s.totalEpisodes ≠ "?" → (handleStatusChange s).watchedEpisodes = s.totalEpisodes) ∧
    (s.totalEpisodes = "?" → (handleStatusChange s).watchedEpisodes = s.watchedEpisodes) ∧
    (handleStatusChange s).totalEpisodes = s.totalEpisodes := by
  have hcond : (isTv s.currentMedia || isTv s.currentMediaToAdd) = true := by
    rcases hopen with ⟨h1, h2⟩ | ⟨h1, h2⟩ <;> simp [isTv, h1, h2, htv]
  have hw : ¬ ("completed" = "watching") := by decide
  refine ⟨?_, ?_, ?_⟩
  · intro hk
    simp [handleStatusChange, hcond, hstatus, hw, hk]
  · intro hk
    simp [handleStatusChange, hcond, hstatus, hw, hk]
  · by_cases hk : s.totalEpisodes = "?" <;>
      simp [handleStatusChange, hcond, hstatus, hw, hk]

/-- Instance of `tv_completed_forces_watched`: the stored show (29 of 200 watched) opened for editing with the status control set to `completed`. -/
theorem tv_completed_forces_watched_witness :
    ((openEditMediaModal sampleShow sampleSession).currentMedia = some sampleShow ∧
      (openEditMediaModal sampleShow sampleSession).currentMediaToAdd = none) ∧
    sampleShow.type = "tv" ∧
    (openEditMediaModal sampleShow sampleSession).totalEpisodes = "200" ∧
    (openEditMediaModal sampleShow sampleSession).watchedEpisodes = "29" ∧
    (handleStatusChange
      { openEditMediaModal sampleShow sampleSession with modalStatus := "completed" }).watchedEpisodes
      = "200" :=
  ⟨by decide, by decide, by decide, by decide,
    (tv_completed_forces_watched
      { openEditMediaModal sampleShow sampleSession with modalStatus := "completed" }
      sampleShow (Or.inl (by decide)) (by decide) (by decide)).1 (by decide)⟩

/-- C8. For search type `all` and catalog answers `T` (tv) and `M` (movie), the
combined list before sorting is the mapped items of `T` followed by the mapped
items of `M`, of length `|T| + |M|`, and the requests are one for `tv` and one
for `movie`; a mapped item carries the type of its request, its title is
`name` (tv) or `title` (movie), and its year is the first 4 characters of
`first_air_date` (tv) or `release_date` (movie), or `Unknown` when that date is
absent or empty; for type `tv` or `movie` only that one request is made. -/
theorem search_all_concatenates (net : Backend) (T M : List CatalogItem)
    (hT : net.search "tv" = .response (some T))
    (hM : net.search "movie" = .response (some M)) :
    (searchLoop net "all").combinedResults = T.map (mapItem "tv") ++ M.map (mapItem "movie") ∧
    (searchLoop net "all").combinedResults.length = T.length + M.length ∧
    (searchLoop net "all").requested = ["tv", "movie"] ∧
    (∀ s : State, s.searchType = "all" → jsTrim s.searchInput ≠ "" →
      (handleSearch net s).effects =
        s.effects ++ [.search "tv" (jsTrim s.searchInput) (jsTrim s.searchYear),
          .search "movie" (jsTrim s.searchInput) (jsTrim s.searchYear)]) ∧
    (∀ item : CatalogItem,
      (mapItem "tv" item).type = "tv" ∧ (mapItem "tv" item).title = item.name ∧
      (item.first_air_date = none ∨ item.first_air_date = some "" →
        (mapItem "tv" item).year = "Unknown") ∧
      (∀ d, item.first_air_date = some d → d ≠ "" → (mapItem "tv" item).year = d.take 4)) ∧
    (∀ item : CatalogItem,
      (mapItem "movie" item).type = "movie" ∧ (mapItem "movie" item).title = item.title ∧
      (item.release_date = none ∨ item.release_date = some "" →
        (mapItem "movie" item).year = "Unknown") ∧
      (∀ d, item.release_date = some d → d ≠ "" → (mapItem "movie" item).year = d.take 4)) ∧
    (∀ net2 : Backend, (searchLoop net2 "tv").requested = ["tv"] ∧
      (searchLoop net2 "movie").requested = ["movie"]) := by
  have hloop : searchLoop net "all" =
      { requested := ["tv", "movie"]
        combinedResults := T.map (mapItem "tv") ++ M.map (mapItem "movie")
        thrown := false } := by
    simp [searchLoop, searchTypes, searchStep, hT, hM]
  have hne : ¬ ("movie" = "tv") := by decide
  refine ⟨by rw [hloop], by rw [hloop]; simp, by rw [hloop], ?_, ?_, ?_, ?_⟩
  · intro s hs hq
    have h1 : ¬ ("search" = "dashboard") := by decide
    have h2 : ¬ ("search" = "tv-shows") := by decide
    have h3 : ¬ ("search" = "movies") := by decide
    have h4 : ¬ ("search" = "continue-watching") := by decide
    unfold handleSearch
    simp only [hs, hloop, if_neg hq]
    repeat' split
    all_goals simp [navigateTo, h1, h2, h3, h4]
  · intro item
    refine ⟨rfl, by simp [mapItem], ?_, ?_⟩
    · rintro (h | h) <;> simp [mapItem, extractYear, h]
    · intro d hd hne2
      simp [mapItem, extractYear, hd, hne2]
  · intro item
    refine ⟨rfl, by simp [mapItem, hne], ?_, ?_⟩
    · rintro (h | h) <;> simp [mapItem, extractYear, h, hne]
    · intro d hd hne2
      simp [mapItem, extractYear, hd, hne2, hne]
  · intro net2
    have ht : ¬ ("tv" = "all") := by decide
    have hm : ¬ ("movie" = "all") := by decide
    constructor
    · simp only [searchLoop, searchTypes, if_neg ht, List.foldl, searchStep]
      cases net2.search "tv" with
      | thrown => simp
      | response r => cases r <;> simp
    · simp only [searchLoop, searchTypes, if_neg hm, List.foldl, searchStep]
      cases net2.search "movie" with
      | thrown => simp
      | response r => cases r <;> simp

/-- Instance of `search_all_concatenates`: two TV items (one with an empty date) and one movie item. -/
theorem search_all_concatenates_witness :
    sampleCatalog.search "tv" = .response (some sampleShows) ∧
    sampleCatalog.search "movie" = .response (some sampleFilms) ∧
    (searchLoop sampleCatalog "all").combinedResults =
      sampleShows.map (mapItem "tv") ++ sampleFilms.map (mapItem "movie") ∧
    ((searchLoop sampleCatalog "all").combinedResults.map (fun m => (m.type, m.title, m.year))
      = [("tv", "Severance", "2022"), ("tv", "Untitled", "Unknown"), ("movie", "Dune", "2021")]) :=
  ⟨by decide, by decide,
    (search_all_concatenates sampleCatalog sampleShows sampleFilms (by decide) (by decide)).1,
    by decide⟩

/-- The one persist request of a save, on each poster path: sent at once with
the candidate poster when the AI verification approves, and sent by
`confirmImage` with the URL the verification poster displays otherwise.  In both cases the payload is
built from the form as it was when the save started. -/
theorem persistRequests_save (net net2 : Backend) (s : State) (user : User) (m : Media)
    (hu : s.currentUser = some user) (hm : openMedia s = some m) :
    (verifyImageWithAI net.verify = true →
      persistRequests (saveMediaDetails net s).effects =
        persistRequests s.effects ++
          [((persistTarget s m).2, (persistTarget s m).1,
            buildPayload user (readForm m s) (m.posterPath.or m.poster_path))]) ∧
    (verifyImageWithAI net.verify = false →
      persistRequests (confirmImage net2 (saveMediaDetails net s)).effects =
        persistRequests s.effects ++
          [("POST", "/media",
            buildPayload user (readForm m s)
              (.str (net2.resolveUrl (m.posterPath.or m.poster_path).toStr)))]) := by
  constructor
  · intro hv
    rw [saveMediaDetails_verified net s user m hu hm hv,
      persistRequests_saveMediaDetailsSend net _ _ _ user (by simp [State.emit, hu]),
      persistRequests_emit_verifyImage]
    rfl
  · intro hv
    have hsave := saveMediaDetails_unverified net s user m hu hm hv
    rw [persistRequests_confirmImage net2 _ user (readForm m s)
      (by rw [hsave]; simp [verifyImage, State.emit, hu]) (by rw [hsave]; rfl), hsave]
    simp [verifyImage, State.emit, persistRequests, List.filterMap_append]

/-! ## Rounding error of the binary64 operations -/

theorem log2Fuel_bounds (fuel : Nat) : ∀ n : Nat, n ≤ fuel → n ≠ 0 →
    2 ^ log2Fuel fuel n ≤ n ∧ n < 2 ^ (log2Fuel fuel n + 1) := by
  induction fuel with
  | zero => intro n h1 h2; omega
  | succ fuel ih =>
    intro n h1 h2
    by_cases h : 2 ≤ n
    · have hrec := ih (n / 2) (by omega) (by omega)
      simp only [log2Fuel, if_pos h]
      rw [pow_succ, pow_succ, pow_succ]
      rw [pow_succ] at hrec
      generalize 2 ^ log2Fuel fuel (n / 2) = A at hrec ⊢
      omega
    · simp only [log2Fuel, if_neg h]
      simp
      omega

/-- The leading bit of a positive number: `2 ^ log2 n ≤ n < 2 ^ (log2 n + 1)`. -/
theorem log2_bounds (n : Nat) (h : n ≠ 0) : 2 ^ log2 n ≤ n ∧ n < 2 ^ (log2 n + 1) :=
  log2Fuel_bounds n n (le_refl n) h

/-- `roundHalfEven n d` is within one half of `n / d`. -/
theorem roundHalfEven_bounds (n d : Nat) (hd : 0 < d) :
    2 * (d * roundHalfEven n d) ≤ 2 * n + d ∧ 2 * n ≤ 2 * (d * roundHalfEven n d) + d := by
  have hdiv := Nat.div_add_mod n d
  have hmod := Nat.mod_lt n hd
  unfold roundHalfEven
  simp only []
  split_ifs <;> (try simp only [Nat.mul_add, Nat.mul_one]) <;>
    generalize d * (n / d) = Q at hdiv ⊢ <;> omega

theorem roundHalfEven_zero (d : Nat) (hd : 0 < d) : roundHalfEven 0 d = 0 := by
  simp [roundHalfEven, hd]

/-- The scaled significand of `roundBinary64` is at least `2 ^ 52`. -/
theorem significand_lower (n d : Nat) (hn : n ≠ 0) (hd : d ≠ 0) :
    2 ^ 52 * (d * 2 ^ log2 n) ≤
      n * 2 ^ (if d * 2 ^ log2 n ≤ n * 2 ^ log2 d then 52 + log2 d else 53 + log2 d) := by
  obtain ⟨hn1, _⟩ := log2_bounds n hn
  obtain ⟨_, hd2⟩ := log2_bounds d hd
  split_ifs with h
  · calc 2 ^ 52 * (d * 2 ^ log2 n) ≤ 2 ^ 52 * (n * 2 ^ log2 d) := Nat.mul_le_mul_left _ h
      _ = n * 2 ^ (52 + log2 d) := by rw [pow_add]; ring
  · have h3 : d * 2 ^ log2 n ≤ 2 ^ (log2 d + 1) * n :=
      Nat.mul_le_mul (le_of_lt hd2) hn1
    calc 2 ^ 52 * (d * 2 ^ log2 n) ≤ 2 ^ 52 * (2 ^ (log2 d + 1) * n) :=
          Nat.mul_le_mul_left _ h3
      _ = n * 2 ^ (53 + log2 d) := by rw [pow_add, pow_add]; ring

/-- Relative error of `roundBinary64`: the result `N / D` of rounding `n / d`
satisfies `(1 - 2⁻⁵³) n / d ≤ N / D ≤ (1 + 2⁻⁵³) n / d`. -/
theorem roundBinary64_error (n d : Nat) (hd : d ≠ 0) :
    0 < (roundBinary64 n d).2 ∧
    2 ^ 53 * (d * (roundBinary64 n d).1) ≤ (2 ^ 53 + 1) * (n * (roundBinary64 n d).2) ∧
    (2 ^ 53 - 1) * (n * (roundBinary64 n d).2) ≤ 2 ^ 53 * (d * (roundBinary64 n d).1) := by
  by_cases hn : n = 0
  · subst hn
    have hpos : 0 < d * 2 ^ log2 0 := Nat.mul_pos (Nat.pos_of_ne_zero hd) (by positivity)
    simp [roundBinary64, roundHalfEven_zero _ hpos, hd]
  · have hsig := significand_lower n d hn hd
    unfold roundBinary64
    simp only []
    generalize (if d * 2 ^ log2 n ≤ n * 2 ^ log2 d then 52 + log2 d else 53 + log2 d) = p
      at hsig ⊢
    have hA : 0 < d * 2 ^ log2 n := Nat.mul_pos (Nat.pos_of_ne_zero hd) (by positivity)
    obtain ⟨h1, h2⟩ := roundHalfEven_bounds (n * 2 ^ p) (d * 2 ^ log2 n) hA
    have e : d * (roundHalfEven (n * 2 ^ p) (d * 2 ^ log2 n) * 2 ^ log2 n) =
        d * 2 ^ log2 n * roundHalfEven (n * 2 ^ p) (d * 2 ^ log2 n) := by ring
    rw [e]
    generalize d * 2 ^ log2 n * roundHalfEven (n * 2 ^ p) (d * 2 ^ log2 n) = Y at h1 h2 ⊢
    generalize d * 2 ^ log2 n = Z at hsig h1 h2
    generalize n * 2 ^ p = X at hsig h1 h2 ⊢
    refine ⟨by positivity, ?_, ?_⟩ <;> norm_num at hsig ⊢ <;> omega

/-- Relative error of `(watched / total) * 100` after its two roundings: the
result `N / D` lies between `(1 - 2⁻⁵³)² y` and `(1 + 2⁻⁵³)² y` for
`y = 100 * watched / total`. -/
theorem percent_product_error (w t : Nat) (ht : t ≠ 0) :
    0 < (numMul (numDiv w t) 100).2 ∧
    81129638414606663681390495662081 * (100 * w * (numMul (numDiv w t) 100).2) ≤
      81129638414606681695789005144064 * (t * (numMul (numDiv w t) 100).1) ∧
    81129638414606681695789005144064 * (t * (numMul (numDiv w t) 100).1) ≤
      81129638414606699710187514626049 * (100 * w * (numMul (numDiv w t) 100).2) := by
  obtain ⟨hD1, a1, a2⟩ := roundBinary64_error w t ht
  obtain ⟨hD2, b1, b2⟩ := roundBinary64_error ((roundBinary64 w t).1 * 100) (roundBinary64 w t).2
    (Nat.pos_iff_ne_zero.mp hD1)
  unfold numMul numDiv
  generalize (roundBinary64 ((roundBinary64 w t).1 * 100) (roundBinary64 w t).2).1 = N2
    at b1 b2 ⊢
  generalize (roundBinary64 ((roundBinary64 w t).1 * 100) (roundBinary64 w t).2).2 = D2
    at hD2 b1 b2 ⊢
  generalize (roundBinary64 w t).1 = N1 at a1 a2 b1 b2
  generalize (roundBinary64 w t).2 = D1 at hD1 a1 a2 b1 b2
  norm_num at a1 a2 b1 b2
  refine ⟨hD2, ?_, ?_⟩
  · apply Nat.le_of_mul_le_mul_left _ hD1
    calc D1 * (81129638414606663681390495662081 * (100 * w * D2))
        = (9007199254740991 * 100 * D2) * (9007199254740991 * (w * D1)) := by ring
      _ ≤ (9007199254740991 * 100 * D2) * (9007199254740992 * (t * N1)) :=
          Nat.mul_le_mul_left _ a2
      _ = (9007199254740992 * t) * (9007199254740991 * (N1 * 100 * D2)) := by ring
      _ ≤ (9007199254740992 * t) * (9007199254740992 * (D1 * N2)) :=
          Nat.mul_le_mul_left _ b2
      _ = D1 * (81129638414606681695789005144064 * (t * N2)) := by ring
  · apply Nat.le_of_mul_le_mul_left _ hD1
    calc D1 * (81129638414606681695789005144064 * (t * N2))
        = (9007199254740992 * t) * (9007199254740992 * (D1 * N2)) := by ring
      _ ≤ (9007199254740992 * t) * (9007199254740993 * (N1 * 100 * D2)) :=
          Nat.mul_le_mul_left _ b1
      _ = (9007199254740993 * 100 * D2) * (9007199254740992 * (t * N1)) := by ring
      _ ≤ (9007199254740993 * 100 * D2) * (9007199254740993 * (w * D1)) :=
          Nat.mul_le_mul_left _ a1
      _ = D1 * (81129638414606699710187514626049 * (100 * w * D2)) := by ring

/-- A lower bound on `Math.round` of a value bounded below. -/
theorem mathRound_lower (w t L N D : Nat) (ht : 0 < t)
    (h1 : 81129638414606663681390495662081 * (100 * w * D) ≤
      81129638414606681695789005144064 * (t * N))
    (c : 2 * 81129638414606681695789005144064 * (t * L) ≤
      81129638414606663681390495662081 * (200 * w) + 81129638414606681695789005144064 * t) :
    L * (2 * D) ≤ 2 * N + D := by
  apply Nat.le_of_mul_le_mul_left _
    (Nat.mul_pos (by norm_num : 0 < 81129638414606681695789005144064) ht)
  calc 81129638414606681695789005144064 * t * (L * (2 * D))
      = D * (2 * 81129638414606681695789005144064 * (t * L)) := by ring
    _ ≤ D * (81129638414606663681390495662081 * (200 * w) +
          81129638414606681695789005144064 * t) := Nat.mul_le_mul_left _ c
    _ = 2 * (81129638414606663681390495662081 * (100 * w * D)) +
          81129638414606681695789005144064 * t * D := by ring
    _ ≤ 2 * (81129638414606681695789005144064 * (t * N)) +
          81129638414606681695789005144064 * t * D := by omega
    _ = 81129638414606681695789005144064 * t * (2 * N + D) := by ring

/-- An upper bound on `Math.round` of a value bounded above. -/
theorem mathRound_upper (w t H N D : Nat) (hD : 0 < D)
    (h2 : 81129638414606681695789005144064 * (t * N) ≤
      81129638414606699710187514626049 * (100 * w * D))
    (c : 81129638414606699710187514626049 * (200 * w) + 81129638414606681695789005144064 * t <
      2 * 81129638414606681695789005144064 * (t * (H + 1))) :
    2 * N + D < (H + 1) * (2 * D) := by
  apply Nat.lt_of_mul_lt_mul_left (a := 81129638414606681695789005144064 * t)
  calc 81129638414606681695789005144064 * t * (2 * N + D)
      = 2 * (81129638414606681695789005144064 * (t * N)) +
          81129638414606681695789005144064 * t * D := by ring
    _ ≤ 2 * (81129638414606699710187514626049 * (100 * w * D)) +
          81129638414606681695789005144064 * t * D := by omega
    _ = D * (81129638414606699710187514626049 * (200 * w) +
          81129638414606681695789005144064 * t) := by ring
    _ < D * (2 * 81129638414606681695789005144064 * (t * (H + 1))) :=
          (Nat.mul_lt_mul_left hD).mpr c
    _ = 81129638414606681695789005144064 * t * ((H + 1) * (2 * D)) := by ring

/-- `exactPercent` is the exact quotient rounded half up:
`⌊watched * 100 / total + 1 / 2⌋` over the rationals. -/
theorem exactPercent_eq_floor (w t : Nat) (ht : t ≠ 0) :
    exactPercent w t = ⌊(w : ℚ) * 100 / t + 1 / 2⌋₊ := by
  have htq : (t : ℚ) ≠ 0 := Nat.cast_ne_zero.mpr ht
  have e : (w : ℚ) * 100 / t + 1 / 2 = ((200 * w + t : ℕ) : ℚ) / ((2 * t : ℕ) : ℚ) := by
    push_cast
    field_simp
    ring
  rw [e, Nat.floor_div_eq_div]
  simp [exactPercent, ht]

/-- Away from a halfway value, and for a watched count below `2 ^ 32`, the
binary64 computation of the percentage gives the exact rounding. -/
theorem tvPercent_exact (w t : Nat) (ht : t ≠ 0) (hw : w < 2 ^ 32)
    (hne : ∀ j, 200 * w ≠ (2 * j + 1) * t) : tvPercent w t = exactPercent w t := by
  obtain ⟨hD, h1, h2⟩ := percent_product_error w t ht
  have htpos : 0 < t := Nat.pos_of_ne_zero ht
  have hdm := Nat.div_add_mod (200 * w + t) (2 * t)
  have hlt := Nat.mod_lt (200 * w + t) (by omega : 0 < 2 * t)
  have hrem : (200 * w + t) % (2 * t) ≠ 0 := by
    intro h0
    rw [h0, Nat.add_zero] at hdm
    rcases Nat.eq_zero_or_pos ((200 * w + t) / (2 * t)) with hK | hK
    · rw [hK] at hdm; omega
    · obtain ⟨j, hj⟩ := Nat.exists_eq_succ_of_ne_zero (Nat.pos_iff_ne_zero.mp hK)
      rw [hj] at hdm
      apply hne j
      have e1 : 2 * t * j.succ = 2 * (t * j) + 2 * t := by rw [Nat.succ_eq_add_one]; ring
      have e2 : (2 * j + 1) * t = 2 * (t * j) + t := by ring
      rw [e1] at hdm
      rw [e2]
      omega
  simp only [tvPercent, exactPercent, if_neg ht, mathRound]
  generalize (numMul (numDiv w t) 100).1 = N at h1 h2 ⊢
  generalize (numMul (numDiv w t) 100).2 = D at hD h1 h2 ⊢
  have e3 : 2 * t * ((200 * w + t) / (2 * t)) = 2 * (t * ((200 * w + t) / (2 * t))) := by ring
  rw [e3] at hdm
  generalize hK : (200 * w + t) / (2 * t) = K at hdm ⊢
  generalize (200 * w + t) % (2 * t) = rem at hdm hlt hrem
  norm_num at hw
  apply Nat.le_antisymm
  · apply Nat.le_of_lt_succ
    rw [Nat.div_lt_iff_lt_mul (by omega : 0 < 2 * D)]
    apply mathRound_upper w t K N D hD h2
    have e4 : t * (K + 1) = t * K + t := by ring
    rw [e4]
    generalize t * K = tK at hdm ⊢
    omega
  · rw [Nat.le_div_iff_mul_le (by omega : 0 < 2 * D)]
    apply mathRound_lower w t K N D htpos h1
    generalize t * K = tK at hdm ⊢
    omega

/-- At a halfway value, and for a watched count below `2 ^ 32`, the binary64
computation of the percentage gives the exact rounding or one less. -/
theorem tvPercent_halfway (w t : Nat) (ht : t ≠ 0) (hw : w < 2 ^ 32)
    (j : Nat) (hj : 200 * w = (2 * j + 1) * t) :
    tvPercent w t = exactPercent w t ∨ tvPercent w t + 1 = exactPercent w t := by
  obtain ⟨hD, h1, h2⟩ := percent_product_error w t ht
  have htpos : 0 < t := Nat.pos_of_ne_zero ht
  have hK : exactPercent w t = j + 1 := by
    simp only [exactPercent, if_neg ht]
    have e : 200 * w + t = (j + 1) * (2 * t) := by rw [hj]; ring
    rw [e]
    exact Nat.mul_div_cancel _ (by omega)
  have e2 : (2 * j + 1) * t = 2 * (t * j) + t := by ring
  rw [e2] at hj
  rw [hK]
  simp only [tvPercent, if_neg ht, mathRound]
  generalize (numMul (numDiv w t) 100).1 = N at h1 h2 ⊢
  generalize (numMul (numDiv w t) 100).2 = D at hD h1 h2 ⊢
  norm_num at hw
  have hlow : j ≤ (2 * N + D) / (2 * D) := by
    rw [Nat.le_div_iff_mul_le (by omega : 0 < 2 * D)]
    apply mathRound_lower w t j N D htpos h1
    generalize t * j = tj at hj ⊢
    omega
  have hup : (2 * N + D) / (2 * D) < j + 1 + 1 := by
    rw [Nat.div_lt_iff_lt_mul (by omega : 0 < 2 * D)]
    apply mathRound_upper w t (j + 1) N D hD h2
    have e3 : t * (j + 1 + 1) = t * j + 2 * t := by ring
    rw [e3]
    generalize t * j = tj at hj ⊢
    omega
  omega

/-- C4, as stated, fails: for a TV record with status `watching`, 29 watched
episodes and 200 in total, the exact rounding of `29 * 100 / 200 = 14.5` is 15,
but the card carries 14, because `29 / 200` is rounded to binary64 before the
multiplication and the product is just below 14.5. -/
theorem tv_percent_29_of_200_is_14 :
    sampleShow.type = "tv" ∧ sampleShow.status = "watching" ∧
    natOr sampleShow.watched_episodes 0 = 29 ∧ natOr sampleShow.total_episodes 0 = 200 ∧
    (createMediaCard sampleShow).progressHtml = .tv 14 "29 / 200" "Season 2, Ep 3" ∧
    exactPercent 29 200 = 15 := by
  decide

/-- C4, amended. For a TV record with status `watching` whose counts are below
`2 ^ 32`, with `watched = watched_episodes` (0 if missing) and
`total = total_episodes` (0 if missing), the percentage that `createMediaCard`
puts in the progress bar is 0 when `total` is 0; otherwise it is the exact
rational `watched * 100 / total` rounded to the nearest integer whenever that
rational is not exactly halfway between two integers, and at a halfway value
it is that rounding (halves up) or one less. -/
theorem tv_card_percent (media : Media) (htv : media.type = "tv")
    (hst : media.status = "watching")
    (hw : natOr media.watched_episodes 0 < 2 ^ 32)
    (_ht : natOr media.total_episodes 0 < 2 ^ 32) :
    ∃ percent episodeCount seasonLine,
      (createMediaCard media).progressHtml = .tv percent episodeCount seasonLine ∧
      (natOr media.total_episodes 0 = 0 → percent = 0) ∧
      (natOr media.total_episodes 0 ≠ 0 →
        (∀ j, 200 * natOr media.watched_episodes 0 ≠
          (2 * j + 1) * natOr media.total_episodes 0) →
        percent = exactPercent (natOr media.watched_episodes 0)
          (natOr media.total_episodes 0)) ∧
      (natOr media.total_episodes 0 ≠ 0 →
        (∃ j, 200 * natOr media.watched_episodes 0 =
          (2 * j + 1) * natOr media.total_episodes 0) →
        percent = exactPercent (natOr media.watched_episodes 0)
            (natOr media.total_episodes 0) ∨
          percent + 1 = exactPercent (natOr media.watched_episodes 0)
            (natOr media.total_episodes 0)) := by
  have hcard : (createMediaCard media).progressHtml =
      .tv (tvPercent (natOr media.watched_episodes 0) (natOr media.total_episodes 0))
        (natToStr (natOr media.watched_episodes 0) ++ " / " ++
          natOrText (some (natOr media.total_episodes 0)) "?")
        ("Season " ++ natOrText media.season "-" ++ ", Ep " ++
          natOrText media.episode "-") := by
    simp only [createMediaCard, htv, hst, and_self, if_true]
  refine ⟨_, _, _, hcard, ?_, ?_, ?_⟩
  · intro h0
    simp [tvPercent, h0]
  · intro h0 hne
    exact tvPercent_exact _ _ h0 hw hne
  · rintro h0 ⟨j, hj⟩
    exact tvPercent_halfway _ _ h0 hw j hj

/-- Instance of `tv_card_percent`: the stored show with 29 of 200 episodes watched. -/
theorem tv_card_percent_witness :
    sampleShow.type = "tv" ∧ sampleShow.status = "watching" ∧
    natOr sampleShow.watched_episodes 0 < 2 ^ 32 ∧
    natOr sampleShow.total_episodes 0 < 2 ^ 32 ∧
    ∃ percent episodeCount seasonLine,
      (createMediaCard sampleShow).progressHtml = .tv percent episodeCount seasonLine ∧
      (natOr sampleShow.total_episodes 0 = 0 → percent = 0) ∧
      (natOr sampleShow.total_episodes 0 ≠ 0 →
        (∀ j, 200 * natOr sampleShow.watched_episodes 0 ≠
          (2 * j + 1) * natOr sampleShow.total_episodes 0) →
        percent = exactPercent (natOr sampleShow.watched_episodes 0)
          (natOr sampleShow.total_episodes 0)) ∧
      (natOr sampleShow.total_episodes 0 ≠ 0 →
        (∃ j, 200 * natOr sampleShow.watched_episodes 0 =
          (2 * j + 1) * natOr sampleShow.total_episodes 0) →
        percent = exactPercent (natOr sampleShow.watched_episodes 0)
            (natOr sampleShow.total_episodes 0) ∨
          percent + 1 = exactPercent (natOr sampleShow.watched_episodes 0)
            (natOr sampleShow.total_episodes 0)) :=
  ⟨by decide, by decide, by decide, by decide,
    tv_card_percent sampleShow (by decide) (by decide) (by decide) (by decide)⟩

/-! ## Movie payloads, navigation, continue watching, modal globals -/

/-- C11, as stated, fails: the payload of a saved movie record has
`watched_episodes = 0`, but its `season` and `episode` are `null`, not 0. -/
theorem movie_payload_season_is_null :
    sampleMovie.type = "movie" ∧
    (persistRequests (saveMediaDetails
        (sampleBackend (.response true true) (.response true ""))
        (openEditMediaModal sampleMovie sampleSession)).effects).map
      (fun r => (r.2.2.watched_episodes, r.2.2.season, r.2.2.episode)) = [(0, none, none)] ∧
    (none : Option JSNumber) ≠ some 0 := by
  decide

/-- C11, amended. For every movie record saved from the modal by a logged-in
user (add or edit, on both poster paths), whatever the form fields contain, the
payload has `watched_episodes` equal to 0 and `season` and `episode` both
`null`. -/
theorem movie_payload_numbers (net net2 : Backend) (s : State) (user : User) (m : Media)
    (hu : s.currentUser = some user) (hm : openMedia s = some m)
    (hmovie : m.type = "movie") :
    ∃ method url body,
      (if verifyImageWithAI net.verify = true then
          persistRequests (saveMediaDetails net s).effects
        else persistRequests (confirmImage net2 (saveMediaDetails net s)).effects) =
        persistRequests s.effects ++ [(method, url, body)] ∧
      body.watched_episodes = 0 ∧ body.season = none ∧ body.episode = none := by
  have hnt : ¬ ("movie" = "tv") := by decide
  have h1 : (readForm m s).watched_episodes = 0 := by simp [readForm, hmovie, hnt]
  have h2 : (readForm m s).season = none := by simp [readForm, hmovie, hnt]
  have h3 : (readForm m s).episode = none := by simp [readForm, hmovie, hnt]
  obtain ⟨hok, hno⟩ := persistRequests_save net net2 s user m hu hm
  by_cases hv : verifyImageWithAI net.verify = true
  · rw [if_pos hv, hok hv]
    exact ⟨_, _, _, rfl, h1, h2, h3⟩
  · rw [if_neg hv, hno (by simpa using hv)]
    exact ⟨_, _, _, rfl, h1, h2, h3⟩

/-- Instance of `movie_payload_numbers`: the stored movie opened for editing,
with season and episode typed into the hidden fields, saved with an approving
verification. -/
theorem movie_payload_numbers_witness :
    ({ openEditMediaModal sampleMovie sampleSession with
        currentSeason := "4", currentEpisode := "2", watchedEpisodes := "9" }).currentUser =
      some { username := "ann" } ∧
    openMedia { openEditMediaModal sampleMovie sampleSession with
        currentSeason := "4", currentEpisode := "2", watchedEpisodes := "9" } =
      some sampleMovie ∧
    sampleMovie.type = "movie" ∧
    ∃ method url body,
      persistRequests (saveMediaDetails
          (sampleBackend (.response true true) (.response true ""))
          { openEditMediaModal sampleMovie sampleSession with
            currentSeason := "4", currentEpisode := "2", watchedEpisodes := "9" }).effects =
        persistRequests ({ openEditMediaModal sampleMovie sampleSession with
            currentSeason := "4", currentEpisode := "2", watchedEpisodes := "9" }).effects ++
          [(method, url, body)] ∧
      body.watched_episodes = 0 ∧ body.season = none ∧ body.episode = none :=
  ⟨by decide, by decide, by decide,
    movie_payload_numbers (sampleBackend (.response true true) (.response true ""))
      (sampleBackend (.response true true) (.response true ""))
      { openEditMediaModal sampleMovie sampleSession with
        currentSeason := "4", currentEpisode := "2", watchedEpisodes := "9" }
      { username := "ann" } sampleMovie (by decide) (by decide) (by decide)⟩

/-- C12 (defect of the code). With no active filter control, `navigateTo`
loads the TV grid with status `watching`, but it loads the movie grid with
status `watching` too, not `to-watch`: `getActiveFilter` falls back to
`"watching"` for every section.  The default parameter of `loadMovies` and the
refresh after a save both use `to-watch` for movies; with an active filter
control `navigateTo` uses its filter. -/
theorem navigateTo_movies_defaults_to_watching :
    sampleSession.tvFilterActive = none ∧ sampleSession.moviesFilterActive = none ∧
    (gridRecords (navigateTo "tv-shows" sampleLibrary sampleSession).tvShowsGrid).map
      (fun m => (m.title, m.status)) = [("Severance", "watching")] ∧
    (gridRecords (navigateTo "movies" sampleLibrary sampleSession).moviesGrid).map
      (fun m => (m.title, m.status)) = [("Dune", "watching")] ∧
    (navigateTo "movies" sampleLibrary sampleSession).moviesGrid ≠
      (loadMovies "to-watch" sampleLibrary sampleSession).moviesGrid ∧
    (gridRecords (loadMovies "to-watch" sampleLibrary sampleSession).moviesGrid).map
      (fun m => (m.title, m.status)) = [("Arrival", "to-watch"), ("Tenet", "to-watch")] ∧
    (gridRecords (saveMediaDetails sampleLibrary
        (openEditMediaModal sampleMovie
          { sampleSession with
            navItems := [("dashboard", false), ("tv-shows", false), ("movies", true)] })).moviesGrid).map
      (fun m => (m.title, m.status)) = [("Arrival", "to-watch"), ("Tenet", "to-watch")] ∧
    (gridRecords (navigateTo "movies" sampleLibrary
        { sampleSession with moviesFilterActive := some "to-watch" }).moviesGrid).map
      (fun m => (m.title, m.status)) = [("Arrival", "to-watch"), ("Tenet", "to-watch")] := by
  decide

theorem gridRecords_renderMediaGrid (items : List Media) :
    gridRecords (renderMediaGrid items) = items := by
  unfold renderMediaGrid
  split_ifs with h
  · simp [gridRecords, List.length_eq_zero.mp h]
  · simp [gridRecords, createMediaCard, List.map_map, Function.comp_def]

theorem continueWatchingFilter_iff (m : Media) :
    continueWatchingFilter m = true ↔ IsContinueWatching m := by
  unfold continueWatchingFilter IsContinueWatching progressInside
  cases hp : m.progress with
  | none => simp
  | some p => simp

/-- C13. For every media list the backend returns to a logged-in user, the
continue-watching grid shows exactly the records of the list with status
`watching`, or with type `movie` and `0 < progress < 100`, in their original
order, and the continue count of the dashboard is the number of records that
grid shows for the same list; the two loaders apply the same predicate. -/
theorem continue_watching_grid_and_count (net : Backend) (s : State) (user : User)
    (media : List Media) (error : String)
    (hu : s.currentUser = some user) (hnet : net.media = .response true media error) :
    gridRecords (loadContinueWatching net s).continueWatchingGrid =
      media.filter continueWatchingFilter ∧
    (∀ m, m ∈ gridRecords (loadContinueWatching net s).continueWatchingGrid ↔
      m ∈ media ∧ IsContinueWatching m) ∧
    (gridRecords (loadContinueWatching net s).continueWatchingGrid).Sublist media ∧
    (loadDashboardData net s).continueCount =
      natToStr (gridRecords (loadContinueWatching net s).continueWatchingGrid).length ∧
    (∀ m, dashboardContinueFilter m = continueWatchingFilter m) := by
  have hgrid : gridRecords (loadContinueWatching net s).continueWatchingGrid =
      media.filter continueWatchingFilter := by
    simp [loadContinueWatching, hu, hnet, gridRecords_renderMediaGrid]
  have hsame : ∀ m, dashboardContinueFilter m = continueWatchingFilter m := fun _ => rfl
  refine ⟨hgrid, ?_, ?_, ?_, hsame⟩
  · intro m
    rw [hgrid, List.mem_filter, continueWatchingFilter_iff]
  · rw [hgrid]
    exact List.filter_sublist media
  · rw [hgrid]
    have hf : dashboardContinueFilter = continueWatchingFilter := funext hsame
    simp [loadDashboardData, hu, hnet, hf]

/-- Instance of `continue_watching_grid_and_count`: a library with a queued
movie, a show being watched, a movie paused at 55 percent and a movie being
watched. -/
theorem continue_watching_grid_and_count_witness :
    sampleSession.currentUser = some { username := "ann" } ∧
    sampleLibrary.media =
      .response true [sampleQueued, sampleShow, samplePaused, sampleMovie] "" ∧
    gridRecords (loadContinueWatching sampleLibrary sampleSession).continueWatchingGrid =
      [sampleShow, samplePaused, sampleMovie] ∧
    (loadDashboardData sampleLibrary sampleSession).continueCount = "3" :=
  ⟨by decide, by decide,
    (continue_watching_grid_and_count sampleLibrary sampleSession { username := "ann" }
      [sampleQueued, sampleShow, samplePaused, sampleMovie] "" (by decide) (by decide)).1,
    by decide⟩

theorem globals_loadTVShows (status : String) (net : Backend) (s : State) :
    (loadTVShows status net s).currentMedia = s.currentMedia ∧
    (loadTVShows status net s).currentMediaToAdd = s.currentMediaToAdd := by
  unfold loadTVShows
  repeat' split
  all_goals simp [showNotification, State.emit]

theorem globals_loadMovies (status : String) (net : Backend) (s : State) :
    (loadMovies status net s).currentMedia = s.currentMedia ∧
    (loadMovies status net s).currentMediaToAdd = s.currentMediaToAdd := by
  unfold loadMovies
  repeat' split
  all_goals simp [showNotification, State.emit]

theorem globals_loadDashboardData (net : Backend) (s : State) :
    (loadDashboardData net s).currentMedia = s.currentMedia ∧
    (loadDashboardData net s).currentMediaToAdd = s.currentMediaToAdd := by
  unfold loadDashboardData
  repeat' split
  all_goals simp [showNotification, State.emit]

/-- Sending a save never sets a modal global: from a state where both are
`null` it ends in such a state. -/
theorem globals_saveMediaDetailsSend (net : Backend) (frame : SaveFrame) (poster : JSVal)
    (s : State) (h1 : s.currentMedia = none) (h2 : s.currentMediaToAdd = none) :
    (saveMediaDetailsSend net frame poster s).currentMedia = none ∧
    (saveMediaDetailsSend net frame poster s).currentMediaToAdd = none := by
  unfold saveMediaDetailsSend
  repeat' split
  all_goals simp [showNotification, State.emit, closeAllModals, hideModals, h1, h2,
    globals_loadTVShows, globals_loadMovies, globals_loadDashboardData]
  all_goals (repeat' split)
  all_goals simp [globals_loadTVShows, globals_loadMovies, globals_loadDashboardData]

theorem globals_openAddMediaModal (media : Media) (s : State) :
    (openAddMediaModal media s).currentMediaToAdd = some media ∧
    (openAddMediaModal media s).currentMedia = none := by
  unfold openAddMediaModal
  by_cases h : media.type = "tv" <;> simp [h, updateStatusOptions]

theorem globals_openEditMediaModal (media : Media) (s : State) :
    (openEditMediaModal media s).currentMedia = some media ∧
    (openEditMediaModal media s).currentMediaToAdd = none := by
  unfold openEditMediaModal
  by_cases h : media.type = "tv" <;> simp [h, updateStatusOptions]

/-- `confirmImage` keeps the two modal globals exclusive, whatever is pending
on the stored promise. -/
theorem globals_confirmImage (net : Backend) (s : State)
    (h : s.currentMedia = none ∨ s.currentMediaToAdd = none) :
    (confirmImage net s).currentMedia = none ∨ (confirmImage net s).currentMediaToAdd = none := by
  unfold confirmImage
  cases hp : s.confirmImagePromise with
  | none => simpa using h
  | some promise =>
    simp only []
    split_ifs
    · left; simp [closeAllModals, hideModals]
    · cases promise.awaiting with
      | saveMediaDetails frame =>
        left
        exact (globals_saveMediaDetailsSend net frame _ _
          (by simp [closeAllModals, hideModals]) (by simp [closeAllModals, hideModals])).1
      | searchCardClick media =>
        left
        exact (globals_openAddMediaModal _ _).2

theorem runCalls_exclusive (calls : List ModalCall) : ∀ s : State,
    (s.currentMedia = none ∨ s.currentMediaToAdd = none) →
    ((runCalls calls s).currentMedia = none ∨ (runCalls calls s).currentMediaToAdd = none) := by
  induction calls with
  | nil => intro s h; exact h
  | cons c calls ih =>
    intro s h
    have hstep : (c.apply s).currentMedia = none ∨ (c.apply s).currentMediaToAdd = none := by
      cases c with
      | openAddMediaModal media => exact Or.inl (globals_openAddMediaModal media s).2
      | openEditMediaModal media => exact Or.inr (globals_openEditMediaModal media s).2
      | closeAllModals => exact Or.inl (by simp [ModalCall.apply, closeAllModals, hideModals])
      | confirmImage net => exact globals_confirmImage net s h
    exact ih (c.apply s) hstep

/-- C14. Starting from the initial state of the page, after every sequence of
`openAddMediaModal`, `openEditMediaModal`, `closeAllModals` and `confirmImage`
calls, `currentMedia` and `currentMediaToAdd` are not both non-null;
`openAddMediaModal` leaves exactly `currentMediaToAdd` set, `openEditMediaModal`
leaves exactly `currentMedia` set, and `closeAllModals` leaves both `null`. -/
theorem modal_globals_exclusive (navItems : List (String × Bool))
    (contentSections : List (String × String)) (calls : List ModalCall) :
    (State.initial navItems contentSections).currentMedia = none ∧
    (State.initial navItems contentSections).currentMediaToAdd = none ∧
    ¬ ((runCalls calls (State.initial navItems contentSections)).currentMedia.isSome = true ∧
      (runCalls calls (State.initial navItems contentSections)).currentMediaToAdd.isSome = true) ∧
    (∀ (s : State) (media : Media),
      (openAddMediaModal media s).currentMediaToAdd = some media ∧
      (openAddMediaModal media s).currentMedia = none) ∧
    (∀ (s : State) (media : Media),
      (openEditMediaModal media s).currentMedia = some media ∧
      (openEditMediaModal media s).currentMediaToAdd = none) ∧
    (∀ s : State,
      (closeAllModals s).currentMedia = none ∧ (closeAllModals s).currentMediaToAdd = none) := by
  refine ⟨rfl, rfl, ?_, fun s media => globals_openAddMediaModal media s,
    fun s media => globals_openEditMediaModal media s,
    fun s => by simp [closeAllModals, hideModals]⟩
  rintro ⟨h1, h2⟩
  rcases runCalls_exclusive calls (State.initial navItems contentSections) (Or.inl rfl) with h | h
  · rw [h] at h1; simp at h1
  · rw [h] at h2; simp at h2

/-! ## The Numbers of `parseInt` and the payload of a TV record -/

theorem roundHalfEven_mul (k d : Nat) (hd : 0 < d) : roundHalfEven (k * d) d = k := by
  simp [roundHalfEven, Nat.mul_div_cancel k hd, hd]

/-- Below `2 ^ 53` the Number value for an integer is the integer itself. -/
theorem numberOfInteger_small (negative : Bool) (n : Nat) (h : n < 2 ^ 53) :
    numberOfInteger negative n = .finite negative n 1 := by
  by_cases hn : n = 0
  · subst hn
    cases negative <;> decide
  · obtain ⟨h1, _⟩ := log2_bounds n hn
    have ha : log2 n ≤ 52 := by
      by_contra hc
      have h3 : 2 ^ 53 ≤ 2 ^ log2 n := Nat.pow_le_pow_right (by norm_num) (by omega)
      omega
    have hlog1 : log2 1 = 0 := by decide
    have hp : (2 : Nat) ^ 52 = 2 ^ (52 - log2 n) * 2 ^ log2 n := by
      rw [← pow_add]
      congr 1
      omega
    have hr : roundBinary64 n 1 = (n * 2 ^ 52, 2 ^ 52) := by
      unfold roundBinary64
      simp only [hlog1, Nat.add_zero, Nat.pow_zero, Nat.mul_one, Nat.one_mul, if_pos h1]
      have e : n * 2 ^ 52 = (n * 2 ^ (52 - log2 n)) * 2 ^ log2 n := by
        rw [Nat.mul_assoc, ← hp]
      rw [e, roundHalfEven_mul _ _ (by positivity)]
    have hlt : ¬ (2 ^ 1024 * 2 ^ 52 ≤ n * 2 ^ 52) := by
      intro hc
      have h4 : (2 : Nat) ^ 1024 ≤ n := Nat.le_of_mul_le_mul_right hc (by positivity)
      have h5 : (2 : Nat) ^ 53 ≤ 2 ^ 1024 := Nat.pow_le_pow_right (by norm_num) (by norm_num)
      omega
    simp only [numberOfInteger, hr, if_neg hlt]
    rw [Nat.mul_div_cancel _ (by positivity)]

/-- C10, as stated, fails: with `0` typed into the season field of a TV record
the field parses to the integer 0, yet the payload carries season 1. -/
theorem season_zero_is_sent_as_one :
    parseIntDigits "0" = some (false, 0) ∧ parseInt "0" = 0 ∧
    (openEditMediaModal sampleShow sampleSession).currentSeason = "2" ∧
    (persistRequests (saveMediaDetails
        (sampleBackend (.response true true) (.response true ""))
        { openEditMediaModal sampleShow sampleSession with currentSeason := "0" }).effects).map
      (fun r => r.2.2.season) = [some 1] := by
  decide

/-- C10, amended. For a TV record saved from the modal by a logged-in user, on
both poster paths, the payload's `watched_episodes` is the Number that
`parseInt` returns for the watched-episodes field, or 0 when that Number is
falsy, and `season` and `episode` are the Numbers that `parseInt` returns for
their fields, or 1 when that Number is falsy.  The Number of a field is falsy
when the field is empty or does not parse (`NaN`) and when it parses to 0; when
it parses to a non-zero integer of magnitude below `2 ^ 53` the Number is that
integer (beyond, it is the nearest binary64 value).  In particular a TV record
opened with `openAddMediaModal` and saved without touching the fields is sent
with `watched_episodes = 0`, `season = 1`, `episode = 1` and `progress = 0`. -/
theorem tv_payload_numbers (net net2 : Backend) (s : State) (user : User) (m : Media)
    (hu : s.currentUser = some user) (hm : openMedia s = some m) (htv : m.type = "tv") :
    (∃ method url body,
      (if verifyImageWithAI net.verify = true then
          persistRequests (saveMediaDetails net s).effects
        else persistRequests (confirmImage net2 (saveMediaDetails net s)).effects) =
        persistRequests s.effects ++ [(method, url, body)] ∧
      body.watched_episodes =
        (if (parseInt s.watchedEpisodes).truthy = true then parseInt s.watchedEpisodes
          else 0) ∧
      body.season =
        some (if (parseInt s.currentSeason).truthy = true then parseInt s.currentSeason
          else 1) ∧
      body.episode =
        some (if (parseInt s.currentEpisode).truthy = true then parseInt s.currentEpisode
          else 1)) ∧
    parseIntDigits "" = none ∧
    (∀ field : String, parseIntDigits field = none →
      parseInt field = .nan ∧ (parseInt field).truthy = false) ∧
    (∀ (field : String) (negative : Bool), parseIntDigits field = some (negative, 0) →
      (parseInt field).truthy = false) ∧
    (∀ (field : String) (negative : Bool) (n : Nat),
      parseIntDigits field = some (negative, n) → n ≠ 0 → n < 2 ^ 53 →
      parseInt field = .finite negative n 1 ∧ (parseInt field).truthy = true) ∧
    (∀ (s0 : State) (media : Media), s0.currentUser = some user → media.type = "tv" →
      ∃ method url body,
        (if verifyImageWithAI net.verify = true then
            persistRequests (saveMediaDetails net (openAddMediaModal media s0)).effects
          else persistRequests
            (confirmImage net2 (saveMediaDetails net (openAddMediaModal media s0))).effects) =
          persistRequests s0.effects ++ [(method, url, body)] ∧
        body.watched_episodes = 0 ∧ body.season = some 1 ∧ body.episode = some 1 ∧
        body.progress = 0) := by
  have hfields : ∀ (t : State) (x : Media), x.type = "tv" →
      (readForm x t).watched_episodes =
        (if (parseInt t.watchedEpisodes).truthy = true then parseInt t.watchedEpisodes
          else 0) ∧
      (readForm x t).season =
        some (if (parseInt t.currentSeason).truthy = true then parseInt t.currentSeason
          else 1) ∧
      (readForm x t).episode =
        some (if (parseInt t.currentEpisode).truthy = true then parseInt t.currentEpisode
          else 1) ∧
      (readForm x t).progress = 0 := by
    intro t x hx
    have hnm : ¬ ("tv" = "movie") := by decide
    refine ⟨?_, ?_, ?_, ?_⟩
    · simp only [readForm, hx, if_true, numOr]
    · simp only [readForm, hx, if_true, numOr]
    · simp only [readForm, hx, if_true, numOr]
    · simp [readForm, hx, hnm]
  refine ⟨?_, by decide, ?_, ?_, ?_, ?_⟩
  · obtain ⟨h1, h2, h3, _⟩ := hfields s m htv
    obtain ⟨hok, hno⟩ := persistRequests_save net net2 s user m hu hm
    by_cases hv : verifyImageWithAI net.verify = true
    · rw [if_pos hv, hok hv]
      exact ⟨_, _, _, rfl, h1, h2, h3⟩
    · rw [if_neg hv, hno (by simpa using hv)]
      exact ⟨_, _, _, rfl, h1, h2, h3⟩
  · intro field h
    simp [parseInt, h, JSNumber.truthy]
  · intro field negative h
    have h0 : numberOfInteger negative 0 = .finite negative 0 1 :=
      numberOfInteger_small negative 0 (by norm_num)
    simp [parseInt, h, h0, JSNumber.truthy]
  · intro field negative n h hn hlt
    have h0 : numberOfInteger negative n = .finite negative n 1 :=
      numberOfInteger_small negative n hlt
    simp [parseInt, h, h0, JSNumber.truthy, hn]
  · intro s0 media hu0 hmtv
    have hu1 : (openAddMediaModal media s0).currentUser = some user := by
      simp [openAddMediaModal, updateStatusOptions, hmtv, hu0]
    have hm1 : openMedia (openAddMediaModal media s0) = some media := by
      simp [openAddMediaModal, updateStatusOptions, hmtv, openMedia, Option.orElse]
    have he : persistRequests (openAddMediaModal media s0).effects =
        persistRequests s0.effects := by
      simp [openAddMediaModal, updateStatusOptions, hmtv]
    have hw : (openAddMediaModal media s0).watchedEpisodes = "0" := by
      simp [openAddMediaModal, updateStatusOptions, hmtv]; decide
    have hse : (openAddMediaModal media s0).currentSeason = "1" := by
      simp [openAddMediaModal, updateStatusOptions, hmtv]; decide
    have hep : (openAddMediaModal media s0).currentEpisode = "1" := by
      simp [openAddMediaModal, updateStatusOptions, hmtv]; decide
    obtain ⟨h1, h2, h3, h4⟩ := hfields (openAddMediaModal media s0) media hmtv
    rw [hw] at h1
    rw [hse] at h2
    rw [hep] at h3
    have p0 : (if (parseInt "0").truthy = true then parseInt "0" else 0) = 0 := by decide
    have p1 : (if (parseInt "1").truthy = true then parseInt "1" else 1) = 1 := by decide
    rw [p0] at h1
    rw [p1] at h2 h3
    obtain ⟨hok, hno⟩ :=
      persistRequests_save net net2 (openAddMediaModal media s0) user media hu1 hm1
    by_cases hv : verifyImageWithAI net.verify = true
    · rw [if_pos hv, hok hv, he]
      exact ⟨_, _, _, rfl, h1, h2, h3, h4⟩
    · rw [if_neg hv, hno (by simpa using hv), he]
      exact ⟨_, _, _, rfl, h1, h2, h3, h4⟩

/-- Instance of `tv_payload_numbers`: the stored show (29 watched, season 2,
episode 3) opened for editing and saved with an approving verification. -/
theorem tv_payload_numbers_witness :
    (openEditMediaModal sampleShow sampleSession).currentUser = some { username := "ann" } ∧
    openMedia (openEditMediaModal sampleShow sampleSession) = some sampleShow ∧
    sampleShow.type = "tv" ∧
    (∃ method url body,
      (if verifyImageWithAI
            (sampleBackend (.response true true) (.response true "")).verify = true then
          persistRequests (saveMediaDetails
            (sampleBackend (.response true true) (.response true ""))
            (openEditMediaModal sampleShow sampleSession)).effects
        else persistRequests (confirmImage
            (sampleBackend (.response true true) (.response true ""))
            (saveMediaDetails (sampleBackend (.response true true) (.response true ""))
              (openEditMediaModal sampleShow sampleSession))).effects) =
        persistRequests (openEditMediaModal sampleShow sampleSession).effects ++
          [(method, url, body)] ∧
      body.watched_episodes =
        (if (parseInt (openEditMediaModal sampleShow sampleSession).watchedEpisodes).truthy
            = true then
          parseInt (openEditMediaModal sampleShow sampleSession).watchedEpisodes
          else 0) ∧
      body.season =
        some (if (parseInt (openEditMediaModal sampleShow sampleSession).currentSeason).truthy
            = true then
          parseInt (openEditMediaModal sampleShow sampleSession).currentSeason
          else 1) ∧
      body.episode =
        some (if (parseInt (openEditMediaModal sampleShow sampleSession).currentEpisode).truthy
            = true then
          parseInt (openEditMediaModal sampleShow sampleSession).currentEpisode
          else 1)) ∧
    (persistRequests (saveMediaDetails
        (sampleBackend (.response true true) (.response true ""))
        (openEditMediaModal sampleShow sampleSession)).effects).map
      (fun r => (r.2.2.watched_episodes, r.2.2.season, r.2.2.episode)) =
      [(29, some 2, some 3)] :=
  ⟨by decide, by decide, by decide,
    (tv_payload_numbers (sampleBackend (.response true true) (.response true ""))
      (sampleBackend (.response true true) (.response true ""))
      (openEditMediaModal sampleShow sampleSession) { username := "ann" } sampleShow
      (by decide) (by decide) (by decide)).1,
    by decide⟩

/-! ## The order of the sorted search results -/

theorem roundBinary64_pos (n d : Nat) (hn : n ≠ 0) (hd : d ≠ 0) :
    0 < (roundBinary64 n d).1 := by
  obtain ⟨h2, _, h3⟩ := roundBinary64_error n d hd
  have hpos : 0 < n * (roundBinary64 n d).2 := Nat.mul_pos (Nat.pos_of_ne_zero hn) h2
  rcases Nat.eq_zero_or_pos (roundBinary64 n d).1 with h0 | h0
  · rw [h0] at h3
    generalize n * (roundBinary64 n d).2 = X at hpos h3
    norm_num at h3
    omega
  · exact h0

/-- The two cases of the normal branch of `toBinary64`. -/
theorem toBinary64_cases (negative : Bool) (n d : Nat) :
    (n * 2 ^ 1022 < d ∧
      toBinary64 negative n d =
        .finite negative (roundHalfEven (n * 2 ^ 1074) d) (2 ^ 1074)) ∨
    (¬ n * 2 ^ 1022 < d ∧ toBinary64 negative n d = .infinity negative) ∨
    (¬ n * 2 ^ 1022 < d ∧
      toBinary64 negative n d =
        .finite negative (roundBinary64 n d).1 (roundBinary64 n d).2) := by
  unfold toBinary64
  by_cases h1 : n * 2 ^ 1022 < d
  · left
    exact ⟨h1, if_pos h1⟩
  · right
    rw [if_neg h1]
    by_cases h2 : 2 ^ 1024 * (roundBinary64 n d).2 ≤ (roundBinary64 n d).1
    · left
      exact ⟨h1, if_pos h2⟩
    · right
      exact ⟨h1, if_neg h2⟩

/-- The Number value of a negative rational is not positive. -/
theorem toBinary64_negative (n d : Nat) : (toBinary64 true n d).isPositive = false := by
  rcases toBinary64_cases true n d with ⟨_, h⟩ | ⟨_, h⟩ | ⟨_, h⟩ <;>
    rw [h] <;> rfl

/-- The Number value of a positive multiple of `2 ^ (-1074)` is positive: the
rounding never reaches zero. -/
theorem toBinary64_positive (n d K : Nat) (hd : 0 < d) (hK : 0 < K)
    (h : n * 2 ^ 1074 = K * d) : (toBinary64 false n d).isPositive = true := by
  have hn : n ≠ 0 := by
    rintro rfl
    have : 0 < K * d := Nat.mul_pos hK hd
    omega
  rcases toBinary64_cases false n d with ⟨_, h1⟩ | ⟨_, h1⟩ | ⟨_, h1⟩
  · rw [h1, h, roundHalfEven_mul K d hd]
    have hK0 : K ≠ 0 := by omega
    simp [JSNumber.isPositive, hK0]
  · rw [h1]
    rfl
  · rw [h1]
    have hp := roundBinary64_pos n d hn (by omega)
    have hp0 : (roundBinary64 n d).1 ≠ 0 := by omega
    simp [JSNumber.isPositive, hp0]

/-- In the normal range the result of `roundBinary64` is a multiple of
`2 ^ (-1074)`. -/
theorem roundBinary64_grid (n d : Nat) (hd : 0 < d) (h : ¬ n * 2 ^ 1022 < d) :
    ∃ k, (roundBinary64 n d).1 * 2 ^ 1074 = k * (roundBinary64 n d).2 := by
  have hle : d ≤ n * 2 ^ 1022 := Nat.le_of_not_lt h
  have hn : n ≠ 0 := by
    rintro rfl
    rw [Nat.zero_mul] at hle
    omega
  obtain ⟨_, hn2⟩ := log2_bounds n hn
  obtain ⟨hd1, _⟩ := log2_bounds d (by omega)
  have key : ∀ p, p ≤ log2 n + 1074 →
      ∃ k, roundHalfEven (n * 2 ^ p) (d * 2 ^ log2 n) * 2 ^ log2 n * 2 ^ 1074 = k * 2 ^ p := by
    intro p hp
    refine ⟨roundHalfEven (n * 2 ^ p) (d * 2 ^ log2 n) * 2 ^ (log2 n + 1074 - p), ?_⟩
    rw [Nat.mul_assoc, Nat.mul_assoc, ← pow_add, ← pow_add]
    congr 2
    omega
  unfold roundBinary64
  by_cases hc : d * 2 ^ log2 n ≤ n * 2 ^ log2 d
  · simp only [if_pos hc]
    apply key
    have h1 : 2 ^ log2 d < 2 ^ (log2 n + 1023) :=
      calc 2 ^ log2 d ≤ d := hd1
        _ ≤ n * 2 ^ 1022 := hle
        _ < 2 ^ (log2 n + 1) * 2 ^ 1022 := Nat.mul_lt_mul_of_pos_right hn2 (by positivity)
        _ = 2 ^ (log2 n + 1023) := by rw [← pow_add]
    have h2 := (Nat.pow_lt_pow_iff_right (by norm_num : 1 < 2)).mp h1
    omega
  · simp only [if_neg hc]
    apply key
    have h1 : n * 2 ^ log2 d < n * 2 ^ (1022 + log2 n) :=
      calc n * 2 ^ log2 d < d * 2 ^ log2 n := Nat.lt_of_not_le hc
        _ ≤ n * 2 ^ 1022 * 2 ^ log2 n := Nat.mul_le_mul_right _ hle
        _ = n * 2 ^ (1022 + log2 n) := by rw [Nat.mul_assoc, ← pow_add]
    have h2 := Nat.lt_of_mul_lt_mul_left h1
    have h3 := (Nat.pow_lt_pow_iff_right (by norm_num : 1 < 2)).mp h2
    omega

theorem toBinary64_onGrid (negative : Bool) (n d : Nat) (hd : 0 < d) :
    (toBinary64 negative n d).OnGrid := by
  rcases toBinary64_cases negative n d with ⟨_, h⟩ | ⟨_, h⟩ | ⟨h0, h⟩ <;> rw [h]
  · exact ⟨by positivity, _, rfl⟩
  · trivial
  · exact ⟨(roundBinary64_error n d (by omega)).1, roundBinary64_grid n d hd h0⟩

theorem numberOfInteger_onGrid (negative : Bool) (n : Nat) :
    (numberOfInteger negative n).OnGrid := by
  unfold numberOfInteger
  by_cases h : 2 ^ 1024 * (roundBinary64 n 1).2 ≤ (roundBinary64 n 1).1
  · simp only [if_pos h]
    trivial
  · simp only [if_neg h]
    exact ⟨by norm_num, _, (Nat.mul_one _).symm⟩

/-- Every value of `Number(string)` is `NaN`, an infinity or a binary64
value. -/
theorem jsNumber_onGrid (s : String) : (jsNumber s).OnGrid := by
  unfold jsNumber
  simp only []
  repeat' split
  all_goals first
    | trivial
    | exact numberOfInteger_onGrid _ _
    | exact toBinary64_onGrid _ _ _ (by positivity)
    | exact ⟨by norm_num, 0, by simp⟩

/-- The value of a finite Number over a common denominator. -/
theorem val_finite (negative : Bool) (n d d2 : Nat) (hd : 0 < d) (hd2 : 0 < d2) :
    (JSNumber.finite negative n d).val =
      (((if negative then -((n * d2 : Nat) : Int) else ((n * d2 : Nat) : Int)) : Int) : ℚ) /
        ((d * d2 : Nat) : ℚ) := by
  have h1 : (d : ℚ) ≠ 0 := Nat.cast_ne_zero.mpr (by omega)
  have h2 : (d2 : ℚ) ≠ 0 := Nat.cast_ne_zero.mpr (by omega)
  cases negative
  · simp only [JSNumber.val, Bool.false_eq_true, if_false]
    push_cast
    field_simp
    ring
  · simp only [JSNumber.val, if_true]
    push_cast
    field_simp
    ring

/-- The difference of two multiples of a unit `1 / G` is a multiple of it: with
`n1 / d1 = k1 / G` and `n2 / d2 = k2 / G`, a positive signed difference over the
common denominator `d1 * d2` is `K / G` for a positive `K`. -/
theorem grid_difference (G n1 d1 n2 d2 k1 k2 : Nat) (s1 s2 : Bool) (hG : 0 < G)
    (hd1 : 0 < d1) (hd2 : 0 < d2) (hk1 : n1 * G = k1 * d1) (hk2 : n2 * G = k2 * d2)
    (A B : Int)
    (hA : (if s1 then -((n1 * d2 : Nat) : Int) else ((n1 * d2 : Nat) : Int)) = A)
    (hB : (if s2 then -((n2 * d1 : Nat) : Int) else ((n2 * d1 : Nat) : Int)) = B)
    (hgt : 0 < A - B) :
    ∃ K : Nat, 0 < K ∧ (A - B).natAbs * G = K * (d1 * d2) := by
  have hk1z : ((n1 : Int) * G) = (k1 : Int) * d1 := by exact_mod_cast hk1
  have hk2z : ((n2 : Int) * G) = (k2 : Int) * d2 := by exact_mod_cast hk2
  have hKz : (A - B) * G =
      ((if s1 then -(k1 : Int) else (k1 : Int)) - (if s2 then -(k2 : Int) else (k2 : Int))) *
        ((d1 : Int) * d2) := by
    rw [← hA, ← hB]
    cases s1 <;> cases s2 <;> simp only [if_true, Bool.false_eq_true, if_false] <;>
      push_cast
    · linear_combination (d2 : Int) * hk1z - (d1 : Int) * hk2z
    · linear_combination (d2 : Int) * hk1z + (d1 : Int) * hk2z
    · linear_combination -(d2 : Int) * hk1z - (d1 : Int) * hk2z
    · linear_combination -(d2 : Int) * hk1z + (d1 : Int) * hk2z
  generalize ((if s1 then -(k1 : Int) else (k1 : Int)) -
    (if s2 then -(k2 : Int) else (k2 : Int))) = Kz at hKz
  have hDz : (0 : Int) < (d1 : Int) * d2 := by
    have := Nat.mul_pos hd1 hd2
    exact_mod_cast this
  have hGz : (0 : Int) < (G : Int) := by exact_mod_cast hG
  have hpos : 0 < (A - B) * G := Int.mul_pos hgt hGz
  have hKpos : 0 < Kz := by
    rw [hKz] at hpos
    exact pos_of_mul_pos_left hpos (le_of_lt hDz)
  refine ⟨Kz.natAbs, by omega, ?_⟩
  have e1 : ((A - B).natAbs : Int) = A - B := Int.natAbs_of_nonneg (by omega)
  have e2 : (Kz.natAbs : Int) = Kz := Int.natAbs_of_nonneg (by omega)
  have : (((A - B).natAbs * G : Nat) : Int) = ((Kz.natAbs * (d1 * d2) : Nat) : Int) := by
    rw [Nat.cast_mul, Nat.cast_mul, e1, e2, Nat.cast_mul]
    exact hKz
  exact Int.ofNat_inj.mp this

/-- The difference of two binary64 values is positive exactly when the first
is the greater: rounding the exact difference keeps its sign and never gives
zero. -/
theorem sub_finite_isPositive (s1 s2 : Bool) (n1 d1 n2 d2 : Nat)
    (g1 : (JSNumber.finite s1 n1 d1).OnGrid) (g2 : (JSNumber.finite s2 n2 d2).OnGrid) :
    ((JSNumber.finite s1 n1 d1).sub (.finite s2 n2 d2)).isPositive = true ↔
      (JSNumber.finite s2 n2 d2).val < (JSNumber.finite s1 n1 d1).val := by
  obtain ⟨hd1, k1, hk1⟩ := g1
  obtain ⟨hd2, k2, hk2⟩ := g2
  have hD : 0 < d1 * d2 := Nat.mul_pos hd1 hd2
  have hDq : (0 : ℚ) < ((d1 * d2 : Nat) : ℚ) := by exact_mod_cast hD
  have hval : (JSNumber.finite s2 n2 d2).val < (JSNumber.finite s1 n1 d1).val ↔
      (if s2 then -((n2 * d1 : Nat) : Int) else ((n2 * d1 : Nat) : Int)) <
        (if s1 then -((n1 * d2 : Nat) : Int) else ((n1 * d2 : Nat) : Int)) := by
    rw [val_finite s1 n1 d1 d2 hd1 hd2, val_finite s2 n2 d2 d1 hd2 hd1, Nat.mul_comm d2 d1,
      div_lt_div_iff_of_pos_right hDq, Int.cast_lt]
  rw [hval]
  generalize hA : (if s1 then -((n1 * d2 : Nat) : Int) else ((n1 * d2 : Nat) : Int)) = A
  generalize hB : (if s2 then -((n2 * d1 : Nat) : Int) else ((n2 * d1 : Nat) : Int)) = B
  have hsub : (JSNumber.finite s1 n1 d1).sub (.finite s2 n2 d2) =
      if A - B = 0 then .finite (n1 = 0 && s1 && !s2) 0 1
      else toBinary64 (decide (A - B < 0)) (A - B).natAbs (d1 * d2) := by
    simp only [JSNumber.sub, hA, hB]
  rw [hsub]
  rcases lt_trichotomy (A - B) 0 with hlt | heq | hgt
  · have hne : A - B ≠ 0 := by omega
    rw [if_neg hne, decide_eq_true hlt, toBinary64_negative]
    constructor
    · intro h; cases h
    · intro h; omega
  · rw [if_pos heq]
    constructor
    · intro h; simp [JSNumber.isPositive] at h
    · intro h; omega
  · have hne : A - B ≠ 0 := by omega
    have hnl : ¬ (A - B < 0) := by omega
    rw [if_neg hne, decide_eq_false hnl]
    constructor
    · intro _; omega
    · intro _
      obtain ⟨K, hK, hKeq⟩ := grid_difference (2 ^ 1074) n1 d1 n2 d2 k1 k2 s1 s2
        (by positivity) hd1 hd2 hk1 hk2 A B hA hB hgt
      exact toBinary64_positive _ _ K hD hK hKeq

/-- For Numbers other than `NaN`, `x - y > 0` holds exactly when `x ≤ y` does
not. -/
theorem sub_isPositive_iff (x y : JSNumber) (hx : x ≠ .nan) (hy : y ≠ .nan)
    (gx : x.OnGrid) (gy : y.OnGrid) :
    (x.sub y).isPositive = true ↔ ¬ x.le y := by
  cases x with
  | nan => exact absurd rfl hx
  | infinity a =>
    cases y with
    | nan => exact absurd rfl hy
    | infinity b =>
      cases a <;> cases b <;>
        simp [JSNumber.sub, JSNumber.isPositive, JSNumber.le, JSNumber.cls, JSNumber.val]
    | finite s2 n2 d2 =>
      cases a <;>
        simp [JSNumber.sub, JSNumber.isPositive, JSNumber.le, JSNumber.cls]
  | finite s1 n1 d1 =>
    cases y with
    | nan => exact absurd rfl hy
    | infinity b =>
      cases b <;>
        simp [JSNumber.sub, JSNumber.isPositive, JSNumber.le, JSNumber.cls]
    | finite s2 n2 d2 =>
      rw [sub_finite_isPositive s1 s2 n1 d1 n2 d2 gx gy]
      simp [JSNumber.le, JSNumber.cls]

/-- The numeric order on Numbers is transitive. -/
theorem number_le_trans (x y z : JSNumber) (h1 : x.le y) (h2 : y.le z) : x.le z := by
  unfold JSNumber.le at *
  rcases h1 with h1 | ⟨h1, v1⟩ <;> rcases h2 with h2 | ⟨h2, v2⟩
  · left; omega
  · left; omega
  · left; omega
  · right; exact ⟨by omega, le_trans v1 v2⟩

/-- The numeric order on Numbers is total. -/
theorem number_le_total (x y : JSNumber) : x.le y ∨ y.le x := by
  unfold JSNumber.le
  rcases lt_trichotomy x.cls y.cls with h | h | h
  · left; left; exact h
  · rcases le_total x.val y.val with v | v
    · left; right; exact ⟨h, v⟩
    · right; right; exact ⟨h.symm, v⟩
  · right; left; exact h

/-- On two items with numeric years the sort keeps `a` before `b` exactly when
`Number(b.year) ≤ Number(a.year)`. -/
theorem sortKeeps_iff (a b : Media) (ha : jsNumber a.year ≠ .nan)
    (hb : jsNumber b.year ≠ .nan) :
    sortKeeps a b ↔ (jsNumber b.year).le (jsNumber a.year) := by
  unfold sortKeeps yearComparator
  have h := sub_isPositive_iff (jsNumber b.year) (jsNumber a.year) hb ha
    (jsNumber_onGrid b.year) (jsNumber_onGrid a.year)
  constructor
  · intro hk
    by_contra hc
    rw [h.mpr hc] at hk
    cases hk
  · intro hle
    cases hp : ((jsNumber b.year).sub (jsNumber a.year)).isPositive with
    | false => rfl
    | true => exact absurd hle (h.mp hp)

theorem pairwise_orderedInsert (a : Media) (l : List Media)
    (ha : jsNumber a.year ≠ .nan)
    (hl : ∀ m ∈ l, jsNumber m.year ≠ .nan) (hs : l.Pairwise YearDesc) :
    (l.orderedInsert sortKeeps a).Pairwise YearDesc := by
  induction l with
  | nil => simp [List.orderedInsert]
  | cons b l ih =>
    have hb : jsNumber b.year ≠ .nan := hl b (List.mem_cons_self b l)
    have hl2 : ∀ m ∈ l, jsNumber m.year ≠ .nan :=
      fun m hm => hl m (List.mem_cons_of_mem b hm)
    rw [List.pairwise_cons] at hs
    obtain ⟨hbl, hs2⟩ := hs
    by_cases hk : sortKeeps a b
    · rw [List.orderedInsert, if_pos hk]
      have hle : (jsNumber b.year).le (jsNumber a.year) := (sortKeeps_iff a b ha hb).mp hk
      refine List.Pairwise.cons ?_ (List.Pairwise.cons hbl hs2)
      intro x hx
      rcases List.mem_cons.mp hx with rfl | hx
      · exact ⟨ha, hb, hle⟩
      · obtain ⟨_, hxn, hxb⟩ := hbl x hx
        exact ⟨ha, hxn, number_le_trans _ _ _ hxb hle⟩
    · rw [List.orderedInsert, if_neg hk]
      have hnle : ¬ (jsNumber b.year).le (jsNumber a.year) :=
        fun h => hk ((sortKeeps_iff a b ha hb).mpr h)
      have hab : (jsNumber a.year).le (jsNumber b.year) := by
        rcases number_le_total (jsNumber a.year) (jsNumber b.year) with h | h
        · exact h
        · exact absurd h hnle
      refine List.Pairwise.cons ?_ (ih hl2 hs2)
      intro x hx
      rcases (List.mem_orderedInsert sortKeeps).mp hx with rfl | hx
      · exact ⟨hb, ha, hab⟩
      · exact hbl x hx

theorem pairwise_arraySort (l : List Media)
    (h : ∀ m ∈ l, jsNumber m.year ≠ .nan) :
    (arraySort l).Pairwise YearDesc := by
  unfold arraySort
  induction l with
  | nil => simp
  | cons a l ih =>
    have hl : ∀ m ∈ l, jsNumber m.year ≠ .nan :=
      fun m hm => h m (List.mem_cons_of_mem a hm)
    rw [List.insertionSort]
    refine pairwise_orderedInsert a _ (h a (List.mem_cons_self a l)) ?_ (ih hl)
    intro m hm
    exact hl m ((List.mem_insertionSort sortKeeps).mp hm)

/-- C9. For a combined result list in which every year is a numeric string
(`Number(year)` is not `NaN`: decimal numerals with optional sign, fraction and
exponent, radix-based integers, infinities), the list that `handleSearch`
renders (whenever the combined results of the search are this list and are not
empty) is `arraySort` of it, which is a permutation of the list, of the same
length, in non-increasing order of `Number(year)`. -/
theorem search_results_sorted_by_year (l : List Media)
    (h : ∀ m ∈ l, jsNumber m.year ≠ .nan) :
    (arraySort l).Perm l ∧
    (arraySort l).length = l.length ∧
    (arraySort l).Pairwise YearDesc ∧
    ∀ (net : Backend) (s : State), jsTrim s.searchInput ≠ "" →
      (searchLoop net s.searchType).thrown = false →
      (searchLoop net s.searchType).combinedResults = l → l ≠ [] →
      (handleSearch net s).searchResults = .grid (arraySort l) := by
  refine ⟨List.perm_insertionSort sortKeeps l, (List.perm_insertionSort sortKeeps l).length_eq,
    pairwise_arraySort l h, ?_⟩
  intro net s hq ht hc hne
  have h1 : ¬ ("search" = "dashboard") := by decide
  have h2 : ¬ ("search" = "tv-shows") := by decide
  have h3 : ¬ ("search" = "movies") := by decide
  have h4 : ¬ ("search" = "continue-watching") := by decide
  have hlen : ¬ (l.length = 0) := by
    intro h0; exact hne (List.length_eq_zero.mp h0)
  unfold handleSearch
  simp only [if_neg hq, ht, hc, if_neg hlen]
  simp [navigateTo, h1, h2, h3, h4]

set_option maxRecDepth 100000 in
/-- Instance of `search_results_sorted_by_year`: years `-500`, `2000`, `1999`,
`1e3`, `12.5`, `0x1F` and `+200` are all numeric and are rendered in the order
2000, 1999, 1000, 200, 31, 12.5, -500. -/
theorem search_results_sorted_by_year_witness :
    (∀ m ∈ sampleYears, jsNumber m.year ≠ .nan) ∧
    (arraySort sampleYears).Perm sampleYears ∧
    (arraySort sampleYears).Pairwise YearDesc ∧
    (arraySort sampleYears).map (fun m => m.year) =
      ["2000", "1999", "1e3", "+200", "0x1F", "12.5", "-500"] :=
  ⟨by decide,
    (search_results_sorted_by_year sampleYears (by decide)).1,
    (search_results_sorted_by_year sampleYears (by decide)).2.2.1,
    by decide⟩

end ShowTracker
